import Mathlib

/-!
# BuildMart admin console: `src/admin/admin-script.js`

A shallow embedding of the client-side live-sync core of the admin page:

* `apiRequest` (lines 141-173): the retrying request helper;
* `initializeWebSocket`, `pingServer`, `handleWebSocketMessage`
  (lines 68-126): the live channel, its reconnect timers and keep-alive loop;
* `showSection`, `loadSectionContent` and the loaders (lines 197-360 and
  553-703): the sections and their pulls;
* `checkAdminAccess` and the `DOMContentLoaded` handler (lines 27-65 and
  812-834): the admin gate and start-up.

Conventions of the embedding.

* JavaScript values are the type `JsVal`. A number inside a value is given
  by the text that `ToString` prints for it. The `retries` argument of
  `apiRequest` is an integer (the model covers integral values in the
  exactly representable range, where `retries--` is exact).
* A promise is modelled by its settlement, `Settled`: resolved with a value
  or rejected with an error.
* The outside world (`fetch`, the WebSocket peer, the timer queue, the
  constructor of `WebSocket`, `JSON.parse`) is explicit data: an oracle or an
  event.
-/

namespace BuildMart

/-! ## JavaScript values -/

/-- JavaScript values: the JSON values, plus `undefined`. A number is given
by the text that `ToString` prints for it (`2`, `1.5`, `1e+21`); both zeros
print `0`. -/
inductive JsVal where
  | undefined : JsVal
  | null : JsVal
  | bool (b : Bool) : JsVal
  | num (text : String) : JsVal
  | str (s : String) : JsVal
  | arr (items : List JsVal) : JsVal
  | obj (fields : List (String × JsVal)) : JsVal

/-- An error value: what `throw` raises and what a promise rejects with.
`new Error(m)` is `JsError.mk "Error" m`. -/
structure JsError where
  name : String
  message : String
  deriving DecidableEq, Repr

/-- The settlement of a promise. -/
inductive Settled where
  | resolved (value : JsVal) : Settled
  | rejected (error : JsError) : Settled

/-- Truthiness, as used by `||` and `!`: of the numbers, zero and `NaN` are
falsy. -/
def JsVal.truthy : JsVal → Bool
  | .undefined => false
  | .null => false
  | .bool b => b
  | .num text => text != "0" && text != "NaN"
  | .str s => s != ""
  | .arr _ => true
  | .obj _ => true

/-- Lookup of an own property in the field list of an object literal. -/
def lookupField {α : Type} (key : String) : List (String × α) → Option α
  | [] => none
  | (k, v) :: rest => if k = key then some v else lookupField key rest

/-- The `TypeError` of `ToString` on an object that has an own `toString`
property: a JSON value is not callable, and `valueOf` gives no primitive. -/
def notPrimitive : JsError :=
  ⟨"TypeError", "Cannot convert object to primitive value"⟩

mutual
/-- The abstract operation `ToString`, as applied by template literals and
by `new Error(value)`: the text, or the `TypeError` thrown. An object
without an own `toString` property prints by `Object.prototype.toString`;
an array prints by `join`. -/
def JsVal.toStr : JsVal → Except JsError String
  | .undefined => .ok "undefined"
  | .null => .ok "null"
  | .bool true => .ok "true"
  | .bool false => .ok "false"
  | .num text => .ok text
  | .str s => .ok s
  | .arr items => JsVal.joinItems items
  | .obj fields =>
      match lookupField "toString" fields with
      | some _ => .error notPrimitive
      | none => .ok "[object Object]"
/-- The text of `Array.prototype.join(",")`: `undefined` and `null` elements
give the empty string, every other element is converted by `ToString`. -/
def JsVal.joinItems : List JsVal → Except JsError String
  | [] => .ok ""
  | [.undefined] => .ok ""
  | [.null] => .ok ""
  | [x] => JsVal.toStr x
  | .undefined :: rest =>
      match JsVal.joinItems rest with
      | .ok tail => .ok ("," ++ tail)
      | .error e => .error e
  | .null :: rest =>
      match JsVal.joinItems rest with
      | .ok tail => .ok ("," ++ tail)
      | .error e => .error e
  | x :: rest =>
      match JsVal.toStr x with
      | .error e => .error e
      | .ok head =>
          match JsVal.joinItems rest with
          | .ok tail => .ok (head ++ "," ++ tail)
          | .error e => .error e
end

/-- Property read `value.key` for a key that no prototype defines
(`error`, `type`, `stats`, ...): a `TypeError` on `undefined` and `null`,
the own property of an object, `undefined` otherwise. -/
def JsVal.getProp (value : JsVal) (key : String) : Except JsError JsVal :=
  match value with
  | .undefined =>
      .error ⟨"TypeError",
        "Cannot read properties of undefined (reading \x27" ++ key ++ "\x27)"⟩
  | .null =>
      .error ⟨"TypeError", "Cannot read properties of null (reading \x27" ++ key ++ "\x27)"⟩
  | .obj fields => .ok ((lookupField key fields).getD .undefined)
  | _ => .ok .undefined

/-- Assignment of one key in an object literal or spread: an existing key
keeps its position and takes the new value, a new key is appended. -/
def setField {α : Type} (key : String) (value : α) : List (String × α) → List (String × α)
  | [] => [(key, value)]
  | (k, v) :: rest => if k = key then (k, value) :: rest else (k, v) :: setField key value rest

/-- Object spread `{ ...base, ...extra }`: the keys of `extra` are assigned
onto `base` in order. -/
def spread {α : Type} (base extra : List (String × α)) : List (String × α) :=
  extra.foldl (fun acc kv => setField kv.1 kv.2 acc) base

/-- Text test `hay.includes(needle)` on character lists: prefix test. -/
def startsWithChars : List Char → List Char → Bool
  | _, [] => true
  | [], _ :: _ => false
  | h :: hay, n :: needle => h == n && startsWithChars hay needle

/-- Text test `hay.includes(needle)` on character lists. -/
def includesChars : List Char → List Char → Bool
  | [], needle => needle.isEmpty
  | h :: hay, needle => startsWithChars (h :: hay) needle || includesChars hay needle

/-- The method `String.prototype.includes`. -/
def jsIncludes (hay needle : String) : Bool :=
  includesChars hay.toList needle.toList

/-! ## `apiRequest` (lines 141-173) -/

/-- What `apiRequest` reads of a `Response`: the `content-type` header
(`null` when absent), the status, and the settlement of `response.json()`
(a rejection when the body does not parse). -/
structure Response where
  contentType : Option String
  status : Nat
  json : Except JsError JsVal

/-- The getter `response.ok`: the status is in the range 200-299. -/
def Response.ok (response : Response) : Bool :=
  decide (200 ≤ response.status) && decide (response.status ≤ 299)

/-- The `options` argument: its `headers` object (empty when
`options.headers` is undefined) and its other own keys (`method`,
`body`, ...). -/
structure Options where
  headers : List (String × String)
  rest : List (String × JsVal)

/-- The two arguments of one `fetch` call. -/
structure Request where
  url : String
  headers : List (String × String)
  rest : List (String × JsVal)

/-- The settlement of a `fetch` call: a `Response`, or a rejection. -/
abbrev FetchResult := Except JsError Response

/-- The network: the settlement of the `k`-th `fetch` call of one
`apiRequest` call (counted from 0), given the request sent. -/
abbrev Network := Nat → Request → FetchResult

/-- What one call of `apiRequest` does to the outside, in order. -/
inductive Effect where
  | fetch (request : Request) : Effect
  | delay (ms : Nat) : Effect

/-- The number of `fetch` calls in a trace. -/
def fetchCount : List Effect → Nat
  | [] => 0
  | .fetch _ :: rest => fetchCount rest + 1
  | .delay _ :: rest => fetchCount rest

/-- The requests of the `fetch` calls in a trace, in order. -/
def fetchRequests : List Effect → List Request
  | [] => []
  | .fetch request :: rest => request :: fetchRequests rest
  | .delay _ :: rest => fetchRequests rest

/-- A template literal substitution of a value read from `localStorage`
(`null` when the key is absent). -/
def storedToString : Option String → String
  | none => "null"
  | some s => s

/-- The base URL, line 143. -/
def baseURL : String := "http://localhost:3000/api"

/-- The arguments of the `fetch` call, lines 147-154:
the URL, and `options` with `headers` replaced by the spread of
`Content-Type`, `Authorization` and then `options.headers`. -/
def buildRequest (token : Option String) (endpoint : String) (options : Options) : Request :=
  { url := baseURL ++ endpoint
    headers := spread
      [("Content-Type", "application/json"),
       ("Authorization", "Bearer " ++ storedToString token)]
      options.headers
    rest := options.rest }

/-- The test of line 157:
`!contentType || !contentType.includes("application/json")`. -/
def invalidContentType (contentType : Option String) : Bool :=
  match contentType with
  | none => true
  | some text => text == "" || !jsIncludes text "application/json"

/-- The statements of the `try` block after `fetch` has settled, lines
156-166: the value returned, or the error thrown. At line 163,
`new Error(message)` converts its argument by `ToString`, which can throw. -/
def tryBody (fetched : FetchResult) : Except JsError JsVal :=
  match fetched with
  | .error error => .error error
  | .ok response =>
      if invalidContentType response.contentType then
        .error ⟨"Error", "Invalid response format"⟩
      else if !response.ok then
        match response.json with
        | .error error => .error error
        | .ok errorData =>
            match errorData.getProp "error" with
            | .error error => .error error
            | .ok message =>
                match (if message.truthy then message
                    else .str ("Request failed with status " ++ toString response.status)).toStr
                  with
                | .error error => .error error
                | .ok text => .error ⟨"Error", text⟩
      else response.json

/-- The loop `while (retries > 0)`, lines 145-172, entered with `made`
fetch calls already made and the trace `done`; then the implicit
`return undefined` of line 173. -/
def whileRetries (network : Network) (request : Request)
    (retries : Int) (made : Nat) (done : List Effect) : Settled × List Effect :=
  if 0 < retries then
    match tryBody (network made request) with
    | .ok payload => (.resolved payload, done ++ [.fetch request])
    | .error error =>
        let retries := retries - 1
        if retries = 0 then (.rejected error, done ++ [.fetch request])
        else whileRetries network request retries (made + 1)
          (done ++ [.fetch request, .delay 1000])
  else (.resolved .undefined, done)
termination_by retries.toNat
decreasing_by omega

/-- The function `apiRequest(endpoint, options, retries)`: the settlement of
the promise it returns, and the trace of its `fetch` calls and delays.
`token` is `localStorage.getItem("token")` at the call. -/
def apiRequest (token : Option String) (network : Network)
    (endpoint : String) (options : Options) (retries : Int) : Settled × List Effect :=
  whileRetries network (buildRequest token endpoint options) retries 0 []

/-! ## The page state: the live channel, the timer queue, notifications -/

/-- The constants `WebSocket.CONNECTING` (0), `OPEN` (1), `CLOSING` (2),
`CLOSED` (3). -/
inductive ReadyState where
  | CONNECTING : ReadyState
  | OPEN : ReadyState
  | CLOSING : ReadyState
  | CLOSED : ReadyState
  deriving DecidableEq, Repr

/-- The callbacks that the script passes to `setTimeout`. -/
inductive Callback where
  /-- Lines 95-99: `() => { if (ws.readyState === WebSocket.CLOSED) initializeWebSocket() }`. -/
  | reconnectIfClosed : Callback
  /-- Line 103: `initializeWebSocket`. -/
  | initializeWebSocket : Callback
  /-- Line 110: `pingServer`. -/
  | pingServer : Callback
  /-- Lines 12-14: `() => { notification.style.display = "block" }`. -/
  | displayNotification (id : Nat) : Callback
  /-- Lines 17-19: `() => { notification.remove() }`. -/
  | removeNotification (id : Nat) : Callback
  deriving DecidableEq, Repr

/-- A pending `setTimeout`: the callback and the time (ms) at which its
delay has elapsed. -/
structure Timer where
  callback : Callback
  due : Nat
  deriving DecidableEq, Repr

/-- The element built by `showNotification`, lines 3-9. -/
structure Notification where
  className : String
  message : String
  display : String
  attached : Bool
  deriving DecidableEq, Repr

/-- The state of the page that the live channel code reads and writes.

* `now`: the clock, in ms since start-up;
* `sockets`: the `readyState` of every `WebSocket` constructed so far, in
  order of construction;
* `ws`: the global `ws` (line 68), the index of the socket it refers to,
  `none` while it is `undefined`;
* `timers`: the pending `setTimeout` calls, in order of registration;
* `sent`: the `send` calls so far, as (socket, data);
* `console`: the first argument of each `console.log` / `console.error`;
* `dispatched`: the argument of each call of `handleWebSocketMessage`;
* `notifications`: the elements created by `showNotification`. -/
structure Page where
  now : Nat
  sockets : List ReadyState
  ws : Option Nat
  timers : List Timer
  sent : List (Nat × String)
  console : List String
  dispatched : List JsVal
  notifications : List Notification

/-- The page before the script has run. -/
def Page.empty : Page :=
  { now := 0, sockets := [], ws := none, timers := [], sent := [], console := [],
    dispatched := [], notifications := [] }

/-- How a handler ends: the page it leaves, and the error it lets escape,
if any. -/
abbrev Completion := Page × Option JsError

/-- The call `setTimeout(callback, delay)`. -/
def setTimeout (callback : Callback) (delay : Nat) (page : Page) : Page :=
  { page with timers := page.timers ++ [⟨callback, page.now + delay⟩] }

/-- The calls `console.log(label, ...)` and `console.error(label, ...)`. -/
def consoleLog (label : String) (page : Page) : Page :=
  { page with console := page.console ++ [label] }

/-- The read `ws.readyState`: `none` while `ws` is `undefined`. -/
def Page.wsReadyState (page : Page) : Option ReadyState :=
  match page.ws with
  | none => none
  | some i => page.sockets[i]?

/-- The function `showNotification(message, type)`, lines 2-25. -/
def showNotification (message type : String) (page : Page) : Page :=
  let id := page.notifications.length
  let page := { page with notifications := page.notifications ++
    [{ className := "notification " ++ type, message := message, display := "", attached := true }] }
  let page := setTimeout (.displayNotification id) 100 page
  setTimeout (.removeNotification id) 3000 page

/-- The text `JSON.stringify({ type: "ping" })`. -/
def pingText : String := "\x7b\"type\":\"ping\"\x7d"

/-- The function `pingServer`, lines 107-112. -/
def pingServer (page : Page) : Page :=
  match page.ws with
  | none => page
  | some i =>
      if page.sockets[i]? = some .OPEN then
        let page := { page with sent := page.sent ++ [(i, pingText)] }
        setTimeout .pingServer 25000 page
      else page

/-- The comparison `value === "text"` of a `switch` on text cases. -/
def JsVal.isText (value : JsVal) (text : String) : Bool :=
  match value with
  | .str s => s == text
  | _ => false

/-- The `ReferenceError` of a call through an identifier that is bound
nowhere. -/
def notDefined (name : String) : JsError :=
  ⟨"ReferenceError", name ++ " is not defined"⟩

/-- The function `handleWebSocketMessage(data)`, lines 114-126. A property
read throws on `null`. The source binds neither `updateDashboardStats`
(line 117) nor `prependActivity` (line 120): the call throws a
`ReferenceError` before its argument is read. The substitutions of the
template of line 123 are converted by `ToString`, in order. -/
def handleWebSocketMessage (data : JsVal) (page : Page) : Completion :=
  match data.getProp "type" with
  | .error e => (page, some e)
  | .ok type =>
      if type.isText "STATS_UPDATE" then (page, some (notDefined "updateDashboardStats"))
      else if type.isText "NEW_ACTIVITY" then (page, some (notDefined "prependActivity"))
      else if type.isText "STOCK_ALERT" then
        match data.getProp "productName" with
        | .error e => (page, some e)
        | .ok productName =>
            match productName.toStr with
            | .error e => (page, some e)
            | .ok nameText =>
                match data.getProp "stock" with
                | .error e => (page, some e)
                | .ok stock =>
                    match stock.toStr with
                    | .error e => (page, some e)
                    | .ok stockText =>
                        (showNotification
                          ("Low stock alert: " ++ nameText ++ " (" ++ stockText ++ " remaining)")
                          "warning" page, none)
      else (page, none)

/-- The function `initializeWebSocket`, lines 70-105. `ctorThrows` says
whether `new WebSocket(...)` throws in this call; when it does not, the new
socket is `CONNECTING`, `ws` refers to it and the four handlers are set. -/
def initializeWebSocket (ctorThrows : Bool) (page : Page) : Page :=
  if ctorThrows then
    let page := consoleLog "Error initializing WebSocket:" page
    setTimeout .initializeWebSocket 3000 page
  else
    { page with sockets := page.sockets ++ [.CONNECTING], ws := some page.sockets.length }

/-- The handler `ws.onopen`, lines 74-78. -/
def onopen (page : Page) : Page :=
  pingServer (consoleLog "WebSocket connected" page)

/-- The handler `ws.onmessage`, lines 80-87, for an event whose `data` is
the given text; `jsonParse` is `JSON.parse`. -/
def onmessage (jsonParse : String → Except JsError JsVal) (data : String) (page : Page) :
    Completion :=
  match jsonParse data with
  | .error _ => (consoleLog "Error handling WebSocket message:" page, none)
  | .ok parsed =>
      match handleWebSocketMessage parsed
          { page with dispatched := page.dispatched ++ [parsed] } with
      | (page, none) => (page, none)
      | (page, some _) => (consoleLog "Error handling WebSocket message:" page, none)

/-- The handler `ws.onerror`, lines 89-91. -/
def onerror (page : Page) : Page :=
  consoleLog "WebSocket error:" page

/-- The handler `ws.onclose`, lines 93-100. -/
def onclose (page : Page) : Page :=
  setTimeout .reconnectIfClosed 3000 (consoleLog "WebSocket disconnected. Reconnecting..." page)

/-- Assignment of a field of one notification element. -/
def updateNotification (id : Nat) (f : Notification → Notification) (page : Page) : Page :=
  { page with notifications := page.notifications.modify f id }

/-- The body of a timer callback. `ctorThrows` is used when the callback
reaches `new WebSocket(...)`. -/
def runCallback (ctorThrows : Bool) (callback : Callback) (page : Page) : Completion :=
  match callback with
  | .reconnectIfClosed =>
      match page.ws with
      | none => (page, some ⟨"TypeError", "Cannot read properties of undefined (reading readyState)"⟩)
      | some i =>
          if page.sockets[i]? = some .CLOSED then (initializeWebSocket ctorThrows page, none)
          else (page, none)
  | .initializeWebSocket => (initializeWebSocket ctorThrows page, none)
  | .pingServer => (pingServer page, none)
  | .displayNotification id =>
      (updateNotification id (fun n => { n with display := "block" }) page, none)
  | .removeNotification id =>
      (updateNotification id (fun n => { n with attached := false }) page, none)

/-! ## The event loop -/

/-- What the environment can do to the page between two tasks.

* `wsOpen i`: socket `i` is connected: it becomes `OPEN` and fires `open`;
* `wsMessage i data`: socket `i`, `OPEN`, receives a message and fires
  `message`;
* `wsError i`: socket `i` fires `error`;
* `wsClosing i`: the closing handshake of socket `i` starts: `OPEN` becomes
  `CLOSING`;
* `wsClose i`: the connection of socket `i` is closed: it becomes `CLOSED`
  and fires `close`;
* `advance ms`: time passes;
* `timeout k ctorThrows`: the pending timer at position `k`, whose delay has
  elapsed, runs;
* `clickClose id`: a click on the close button of notification `id`
  (lines 22-24). -/
inductive Event where
  | wsOpen (socket : Nat) : Event
  | wsMessage (socket : Nat) (data : String) : Event
  | wsError (socket : Nat) : Event
  | wsClosing (socket : Nat) : Event
  | wsClose (socket : Nat) : Event
  | advance (ms : Nat) : Event
  | timeout (index : Nat) (ctorThrows : Bool) : Event
  | clickClose (id : Nat) : Event

/-- One task of the event loop: `none` when the event cannot occur in
this state. An error that escapes a handler ends the task. -/
def step (jsonParse : String → Except JsError JsVal) (page : Page) : Event → Option Page
  | .wsOpen i =>
      if page.sockets[i]? = some .CONNECTING then
        some (onopen { page with sockets := page.sockets.set i .OPEN })
      else none
  | .wsMessage i data =>
      if page.sockets[i]? = some .OPEN then some (onmessage jsonParse data page).1
      else none
  | .wsError i =>
      if i < page.sockets.length then some (onerror page) else none
  | .wsClosing i =>
      if page.sockets[i]? = some .OPEN then
        some { page with sockets := page.sockets.set i .CLOSING }
      else none
  | .wsClose i =>
      match page.sockets[i]? with
      | none => none
      | some .CLOSED => none
      | some _ => some (onclose { page with sockets := page.sockets.set i .CLOSED })
  | .advance ms => some { page with now := page.now + ms }
  | .timeout k ctorThrows =>
      match page.timers[k]? with
      | none => none
      | some timer =>
          if timer.due ≤ page.now then
            some (runCallback ctorThrows timer.callback
              { page with timers := page.timers.eraseIdx k }).1
          else none
  | .clickClose id =>
      if id < page.notifications.length then
        some (updateNotification id (fun n => { n with attached := false }) page)
      else none

/-- A sequence of tasks, in order. -/
def run (jsonParse : String → Except JsError JsVal) : Page → List Event → Option Page
  | page, [] => some page
  | page, event :: rest =>
      match step jsonParse page event with
      | none => none
      | some next => run jsonParse next rest

/-- Page start-up, as far as the live channel goes: the one call of
`initializeWebSocket` at line 816. -/
def start (ctorThrows : Bool) : Page :=
  initializeWebSocket ctorThrows Page.empty

/-- The states the page can be in: those that some sequence of tasks
reaches from start-up. -/
def Reachable (jsonParse : String → Except JsError JsVal) (page : Page) : Prop :=
  ∃ ctorThrows events, run jsonParse (start ctorThrows) events = some page

/-- The channels that are `CONNECTING` or `OPEN`. -/
def activeChannels (page : Page) : Nat :=
  page.sockets.countP (fun r => r = .CONNECTING || r = .OPEN)

/-- The channels that have not fired `close`. -/
def liveChannels (page : Page) : Nat :=
  page.sockets.countP (fun r => r != .CLOSED)

/-- The callbacks that reconnect: those of lines 95 and 103. -/
def Callback.isReconnect : Callback → Bool
  | .reconnectIfClosed => true
  | .initializeWebSocket => true
  | _ => false

/-- The pending reconnect timers (lines 95 and 103). -/
def reconnectTimers (page : Page) : Nat :=
  page.timers.countP (fun t => t.callback.isReconnect)

/-- The pending keep-alive timers (line 110): one per running keep-alive
loop. -/
def keepAliveLoops (page : Page) : Nat :=
  page.timers.countP (fun t => t.callback = .pingServer)

/-- A handler that leaves the channel alone: between `before` and `after`
the sockets and `ws` are the same, and the timers registered are not
reconnect timers. -/
def Quiet (before after : Page) : Prop :=
  after.sockets = before.sockets ∧ after.ws = before.ws ∧
    ∃ extra, after.timers = before.timers ++ extra ∧
      ∀ t ∈ extra, t.callback.isReconnect = false

/-- The invariant of the live channel:

* the channels that have not closed and the pending reconnect timers are
  at most one in all;
* `ws` is `undefined` only while no socket has been constructed, and
  refers to a constructed socket otherwise;
* a pending timer of lines 95-99 was registered by the `close` of a
  socket. -/
def Invariant (page : Page) : Prop :=
  liveChannels page + reconnectTimers page ≤ 1 ∧
    (match page.ws with
      | none => page.sockets = []
      | some i => i < page.sockets.length) ∧
    ∀ t ∈ page.timers, t.callback = .reconnectIfClosed → page.sockets ≠ []

/-! ## The document: sections, navigation, lists

The HTML file is not part of the source, so the document is a parameter of
the model: the elements that have an `id`, and the items of `.admin-nav`.
The containers that the loaders write (`.products-list`, `.activity-list`,
the `[data-stat]` cards, ...) are taken to exist. -/

/-- An element that has an `id`: whether it has the class `admin-section`,
and its `style.display`. -/
structure Element where
  id : String
  adminSection : Bool
  display : String
  deriving DecidableEq, Repr

/-- An `li` of `.admin-nav` with its link: the `href` of the link, and
whether the `li` has the class `active`. -/
structure NavItem where
  href : String
  active : Bool
  deriving DecidableEq, Repr

/-- The functions that load the data of a section. -/
inductive Loader where
  | loadDashboardData : Loader
  | loadProducts : Loader
  | loadOrders : Loader
  | loadCustomers : Loader
  | loadInquiries : Loader
  deriving DecidableEq, Repr

/-- What a list container shows. The markup is not modelled: the content
records which template was written and from which data.

* `initial`: the markup of the HTML file;
* `table rows`: the table template of a loader, one row per item;
* `activities items`: one activity element per item (lines 226-231);
* `emptyState`: the `empty-state` markup of lines 217-222;
* `errorState retry`: the `error-state` markup, whose Retry button calls
  `retry` (lines 242-250 and 693-701);
* `settingsForm`: the form of lines 750-777. -/
inductive Content where
  | initial : Content
  | table (rows : List JsVal) : Content
  | activities (items : List JsVal) : Content
  | emptyState : Content
  | errorState (retry : Loader) : Content
  | settingsForm : Content

/-- What the four `[data-stat]` cards show: the markup of the HTML file,
the values of a stats object (lines 202-209), or the error text (lines
238-240). -/
inductive StatCards where
  | initial : StatCards
  | values (stats : JsVal) : StatCards
  | error : StatCards

/-- A loader suspended at `await apiRequest(...)`: which call it awaits. -/
inductive Awaiting where
  /-- Line 199: `apiRequest("/stats/dashboard")`. -/
  | dashboardStats : Awaiting
  /-- Line 212: `apiRequest("/activity/recent")`. -/
  | dashboardActivities : Awaiting
  /-- Line 309: `apiRequest("/products")`. -/
  | products : Awaiting
  /-- Line 555: `apiRequest("/orders")`. -/
  | orders : Awaiting
  /-- Line 600: `apiRequest("/customers")`. -/
  | customers : Awaiting
  /-- Line 644: `apiRequest("/contacts")`. -/
  | inquiries : Awaiting
  deriving DecidableEq, Repr

/-- The endpoint of the call that a suspended loader awaits. -/
def Awaiting.endpoint : Awaiting → String
  | .dashboardStats => "/stats/dashboard"
  | .dashboardActivities => "/activity/recent"
  | .products => "/products"
  | .orders => "/orders"
  | .customers => "/customers"
  | .inquiries => "/contacts"

/-- The state of the admin page.

* `page`: the live channel, the timer queue and the notifications;
* `user`, `token`: the items `user` and `token` of `localStorage`;
* `location`: `window.location.href`;
* `redirects`: the due times of the pending timers of lines 40-42, whose
  callback assigns `window.location.href`;
* `listening`: whether the click listeners of lines 819-825 are set;
* `elements`, `nav`: the document;
* `statCards` and the six containers: what the loaders have written;
* `pulls`: the loaders suspended on a pending `apiRequest` call, in order
  of call. -/
structure Admin where
  page : Page
  user : Option String
  token : Option String
  location : String
  redirects : List Nat
  listening : Bool
  elements : List Element
  nav : List NavItem
  statCards : StatCards
  activityList : Content
  productsList : Content
  ordersList : Content
  customersList : Content
  contactsList : Content
  settingsContainer : Content
  pulls : List Awaiting

/-- The admin page as loaded, before the script has run. -/
def Admin.initial (elements : List Element) (nav : List NavItem)
    (user token : Option String) : Admin :=
  { page := Page.empty, user := user, token := token, location := "admin/admin.html",
    redirects := [], listening := false, elements := elements, nav := nav,
    statCards := .initial, activityList := .initial, productsList := .initial,
    ordersList := .initial, customersList := .initial, contactsList := .initial,
    settingsContainer := .initial, pulls := [] }

/-- A statement that acts on the live channel state. -/
def Admin.onPage (f : Page → Page) (admin : Admin) : Admin :=
  { admin with page := f admin.page }

/-- The position of the first element accepted by `p`. -/
def findIndex {α : Type} (p : α → Bool) : List α → Option Nat
  | [] => none
  | x :: rest => if p x then some 0 else (findIndex p rest).map (· + 1)

/-- The text `text.substring(1)`. -/
def substringFrom1 (text : String) : String :=
  ⟨text.data.drop 1⟩

/-- The sections displayed: the `admin-section` elements whose
`style.display` is `block`. -/
def displayedSections (admin : Admin) : List String :=
  (admin.elements.filter (fun el => el.adminSection && el.display == "block")).map (·.id)

/-- The nav items marked `active`, by `href`. -/
def activeNavItems (admin : Admin) : List String :=
  (admin.nav.filter (·.active)).map (·.href)

/-- A loader reaches `await apiRequest(...)`: the call is made and the
loader is suspended. -/
def startPull (awaiting : Awaiting) (admin : Admin) : Admin :=
  { admin with pulls := admin.pulls ++ [awaiting] }

/-- A loader, run up to its first `await`. -/
def Loader.start : Loader → Admin → Admin
  | .loadDashboardData => startPull .dashboardStats
  | .loadProducts => startPull .products
  | .loadOrders => startPull .orders
  | .loadCustomers => startPull .customers
  | .loadInquiries => startPull .inquiries

/-- The function `loadSettings`, lines 748-781. -/
def loadSettings (admin : Admin) : Admin :=
  { admin with settingsContainer := .settingsForm }

/-- The function `loadSectionContent(sectionId)`, lines 283-304, up to the
first `await` of the loader it calls. -/
def loadSectionContent (sectionId : String) (admin : Admin) : Admin :=
  if sectionId = "dashboard" then Loader.start .loadDashboardData admin
  else if sectionId = "products" then Loader.start .loadProducts admin
  else if sectionId = "orders" then Loader.start .loadOrders admin
  else if sectionId = "customers" then Loader.start .loadCustomers admin
  else if sectionId = "inquiries" then Loader.start .loadInquiries admin
  else if sectionId = "settings" then loadSettings admin
  else admin

/-- Lines 258-260: every `admin-section` element gets `display: none`. -/
def hideSections (elements : List Element) : List Element :=
  elements.map (fun el => if el.adminSection then { el with display := "none" } else el)

/-- Lines 263-265: every nav item loses the class `active`. -/
def unmarkNav (nav : List NavItem) : List NavItem :=
  nav.map (fun item => { item with active := false })

/-- The function `showSection(sectionId)`, lines 255-281, up to the first
`await` of the loader. The read `.parentElement` throws when no nav link has
the `href`; the `catch` logs and notifies. -/
def showSection (sectionId : String) (admin : Admin) : Admin :=
  let admin := { admin with elements := hideSections admin.elements }
  let admin := { admin with nav := unmarkNav admin.nav }
  match findIndex (fun el => el.id == sectionId) admin.elements with
  | none => admin
  | some selected =>
      let shown := admin.elements.modify (fun el => { el with display := "block" }) selected
      let admin := { admin with elements := shown }
      match findIndex (fun item => item.href == "#" ++ sectionId) admin.nav with
      | none =>
          admin.onPage (fun page => showNotification "Failed to load section content" "error"
            (consoleLog "Error showing section:" page))
      | some link =>
          let marked := admin.nav.modify (fun item => { item with active := true }) link
          loadSectionContent sectionId { admin with nav := marked }

/-! ## The loaders after `await` -/

/-- A `TypeError` thrown while a template is evaluated: a property of
`null` is read, a method that the value does not have is called, or a
substitution cannot be converted. The loaders use it only to enter their
`catch`. -/
def templateError : JsError :=
  ⟨"TypeError", "Cannot read properties or call method"⟩

/-- Whether `ToString` of a value returns. -/
def JsVal.converts (value : JsVal) : Bool :=
  match value.toStr with
  | .ok _ => true
  | .error _ => false

/-- Whether the substitution `${item.key}`, or the call
`new Date(item.key)`, evaluates: the property is read and converted. -/
def propConverts (item : JsVal) (key : String) : Bool :=
  match item.getProp key with
  | .ok value => value.converts
  | .error _ => false

/-- Whether the substitution `${item.key || text}` evaluates: a truthy
property is converted. -/
def propOrConverts (item : JsVal) (key : String) : Bool :=
  match item.getProp key with
  | .ok value => !value.truthy || value.converts
  | .error _ => false

/-- Whether the row template of `loadProducts` (lines 330-344) evaluates
for an item: `product.price.toFixed(2)` needs a number, the other
substitutions are converted by `ToString`. -/
def productRow (product : JsVal) : Bool :=
  (match product.getProp "price" with
    | .ok (.num _) => true
    | _ => false) &&
  propConverts product "imageUrl" && propConverts product "name" &&
  propConverts product "category" && propConverts product "stock" &&
  propConverts product "_id"

/-- Whether the row template of `loadOrders` (lines 572-583) evaluates for
an item: `order.total.toFixed(2)` needs a number,
`order.status.toLowerCase()` a text, the other substitutions are
converted. -/
def orderRow (order : JsVal) : Bool :=
  (match order.getProp "total", order.getProp "status" with
    | .ok (.num _), .ok (.str _) => true
    | _, _ => false) &&
  propConverts order "_id" && propConverts order "customerName" &&
  propConverts order "createdAt"

/-- Whether the row template of `loadCustomers` (lines 616-626) evaluates
for an item: its properties are read and converted. -/
def customerRow (customer : JsVal) : Bool :=
  propConverts customer "name" && propConverts customer "email" &&
  propConverts customer "createdAt" && propOrConverts customer "orderCount" &&
  propConverts customer "_id"

/-- Whether the row template of `loadInquiries` (lines 661-676) evaluates
for an item: a truthy `inquiry.message` needs `substring`, so it is a
text; the other substitutions are converted. -/
def inquiryRow (inquiry : JsVal) : Bool :=
  (match inquiry.getProp "message" with
    | .ok (.str _) => true
    | .ok message => !message.truthy
    | .error _ => false) &&
  propOrConverts inquiry "name" && propOrConverts inquiry "email" &&
  propConverts inquiry "_id" && propConverts inquiry "createdAt" &&
  propOrConverts inquiry "status"

/-- The expression `payload.map(row => ...).join("")` of a table template:
the rows, or the `TypeError` thrown when `payload` is not an array or a row
template throws. -/
def renderRows (rowOk : JsVal → Bool) (payload : JsVal) : Except JsError (List JsVal) :=
  match payload with
  | .arr items => if items.all rowOk then .ok items else .error templateError
  | _ => .error templateError

mutual
/-- Whether the call `value.toLocaleString()` returns: a primitive has the
method; an object needs no own `toLocaleString` and no own `toString`
property; an array calls the method of each element that is not `null`. -/
def JsVal.localizes : JsVal → Bool
  | .undefined => false
  | .null => false
  | .bool _ => true
  | .num _ => true
  | .str _ => true
  | .arr items => JsVal.localizesItems items
  | .obj fields =>
      (lookupField "toLocaleString" fields).isNone && (lookupField "toString" fields).isNone
/-- The elements of an array under `Array.prototype.toLocaleString`. -/
def JsVal.localizesItems : List JsVal → Bool
  | [] => true
  | .undefined :: rest => JsVal.localizesItems rest
  | .null :: rest => JsVal.localizesItems rest
  | x :: rest => JsVal.localizes x && JsVal.localizesItems rest
end

/-- Whether the call `(stats.key || 0).toLocaleString()` of lines 205-209
returns. -/
def propOrLocalizes (stats : JsVal) (key : String) : Bool :=
  match stats.getProp key with
  | .ok value => !value.truthy || value.localizes
  | .error _ => false

/-- Whether lines 202-209 of `loadDashboardData` evaluate for the value of
`/stats/dashboard`: `parseFloat` converts a truthy `totalValue`, the three
counts are printed by `toLocaleString`. -/
def statsRender (stats : JsVal) : Bool :=
  propOrConverts stats "totalValue" && propOrLocalizes stats "totalCustomers" &&
  propOrLocalizes stats "totalInquiries" && propOrLocalizes stats "totalProducts"

/-- The test of line 227: `activity && activity.type && activity.message`. -/
def activityShown (activity : JsVal) : Bool :=
  activity.truthy &&
  (match activity.getProp "type" with
    | .ok value => value.truthy
    | .error _ => false) &&
  (match activity.getProp "message" with
    | .ok value => value.truthy
    | .error _ => false)

/-- Whether `createActivityElement(activity)` (lines 176-194) returns:
`new Date(activity.timestamp)` and the substitutions of `activity.type` and
`activity.message` are converted. -/
def activityElement (activity : JsVal) : Bool :=
  propConverts activity "timestamp" && propConverts activity "type" &&
  propConverts activity "message"

/-- Lines 213-231 of `loadDashboardData`: what the activity list shows
for the value of `/activity/recent`, or the `TypeError` of
`activities.forEach` on a value that is not an array or of an element that
cannot be built. -/
def renderActivities (activities : JsVal) : Except JsError Content :=
  if !activities.truthy then .ok .emptyState
  else
    match activities with
    | .arr [] => .ok .emptyState
    | .arr items =>
        if (items.filter activityShown).all activityElement then
          .ok (.activities (items.filter activityShown))
        else .error templateError
    | .obj fields =>
        match lookupField "length" fields with
        | some (.num "0") => .ok .emptyState
        | _ => .error templateError
    | _ => .error templateError

/-- The `catch` of `loadDashboardData`, lines 233-251. -/
def dashboardFailed (admin : Admin) : Admin :=
  let admin := admin.onPage (fun page => showNotification "Failed to load dashboard data" "error"
    (consoleLog "Dashboard loading error:" page))
  { admin with statCards := .error, activityList := .errorState .loadDashboardData }

/-- The `catch` of `loadProducts`, lines 356-359. -/
def productsFailed (admin : Admin) : Admin :=
  admin.onPage (fun page => showNotification "Failed to load products" "error"
    (consoleLog "Error loading products:" page))

/-- The `catch` of `loadOrders`, lines 592-595. -/
def ordersFailed (admin : Admin) : Admin :=
  admin.onPage (fun page => showNotification "Failed to load orders" "error"
    (consoleLog "Error loading orders:" page))

/-- The `catch` of `loadCustomers`, lines 635-638. -/
def customersFailed (admin : Admin) : Admin :=
  admin.onPage (fun page => showNotification "Failed to load customers" "error"
    (consoleLog "Error loading customers:" page))

/-- The `catch` of `loadInquiries`, lines 690-702. -/
def inquiriesFailed (admin : Admin) : Admin :=
  let admin := admin.onPage (fun page => showNotification "Failed to load inquiries" "error"
    (consoleLog "Error loading inquiries:" page))
  { admin with contactsList := .errorState .loadInquiries }

/-- A suspended loader goes on when its `apiRequest` call settles with
`result`: the statements after the `await`, up to the next `await` or the
end of the loader. -/
def resume (awaiting : Awaiting) (result : Settled) (admin : Admin) : Admin :=
  match awaiting, result with
  | .dashboardStats, .resolved stats =>
      if statsRender stats then
        startPull .dashboardActivities { admin with statCards := .values stats }
      else dashboardFailed admin
  | .dashboardStats, .rejected _ => dashboardFailed admin
  | .dashboardActivities, .resolved activities =>
      match renderActivities activities with
      | .ok content => { admin with activityList := content }
      | .error _ => dashboardFailed admin
  | .dashboardActivities, .rejected _ => dashboardFailed admin
  | .products, .resolved products =>
      match renderRows productRow products with
      | .ok rows => { admin with productsList := .table rows }
      | .error _ => productsFailed admin
  | .products, .rejected _ => productsFailed admin
  | .orders, .resolved orders =>
      match renderRows orderRow orders with
      | .ok rows => { admin with ordersList := .table rows }
      | .error _ => ordersFailed admin
  | .orders, .rejected _ => ordersFailed admin
  | .customers, .resolved customers =>
      match renderRows customerRow customers with
      | .ok rows => { admin with customersList := .table rows }
      | .error _ => customersFailed admin
  | .customers, .rejected _ => customersFailed admin
  | .inquiries, .resolved inquiries =>
      match renderRows inquiryRow inquiries with
      | .ok rows => { admin with contactsList := .table rows }
      | .error _ => inquiriesFailed admin
  | .inquiries, .rejected _ => inquiriesFailed admin

/-- The loader whose Retry button a container shows, if any. -/
def Content.retry : Content → Option Loader
  | .errorState loader => some loader
  | _ => none

/-- The loaders of the Retry buttons in the document. -/
def retryControls (admin : Admin) : List Loader :=
  [admin.activityList, admin.productsList, admin.ordersList, admin.customersList,
    admin.contactsList, admin.settingsContainer].filterMap Content.retry

/-! ## `checkAdminAccess` (lines 27-65) and page start-up (lines 812-834) -/

/-- The arguments of the `fetch` call of lines 47-51. -/
def verifyRequest (token : String) : Request :=
  { url := "http://localhost:3000/api/verify-admin"
    headers := [("Authorization", "Bearer " ++ token)]
    rest := [] }

/-- The `catch` of `checkAdminAccess`, lines 58-64, up to `return false`. -/
def accessError (admin : Admin) : Admin :=
  let admin := admin.onPage (consoleLog "Admin access error:")
  { admin with token := none, user := none, location := "../index.html" }

/-- The function `checkAdminAccess`: the value its promise resolves to, and
the page it leaves. `jsonParse` is `JSON.parse`; `verify` is the settlement
of the `fetch` call of line 47. An absent `user` item is `null`, which
`JSON.parse` turns into `null`. -/
def checkAdminAccess (jsonParse : String → Except JsError JsVal)
    (verify : Request → FetchResult) (admin : Admin) : Bool × Admin :=
  let parsed : Except JsError JsVal :=
    match admin.user with
    | none => .ok .null
    | some text => jsonParse text
  match parsed with
  | .error _ => (false, accessError admin)
  | .ok user =>
      match admin.token with
      | none => (false, { admin with location := "../index.html" })
      | some token =>
          if !user.truthy || token == "" then
            (false, { admin with location := "../index.html" })
          else
            match user.getProp "role" with
            | .error _ => (false, accessError admin)
            | .ok role =>
                if !role.isText "admin" then
                  let admin := admin.onPage (showNotification "Admin access required" "error")
                  (false, { admin with redirects := admin.redirects ++ [admin.page.now + 2000] })
                else
                  match verify (verifyRequest token) with
                  | .error _ => (false, accessError admin)
                  | .ok response =>
                      if !response.ok then (false, accessError admin)
                      else (true, admin)

/-- The `DOMContentLoaded` handler, lines 812-834, up to the first `await`
of `showSection("dashboard")`. `ctorThrows` says whether
`new WebSocket(...)` throws. -/
def domContentLoaded (jsonParse : String → Except JsError JsVal)
    (verify : Request → FetchResult) (ctorThrows : Bool) (admin : Admin) : Admin :=
  match checkAdminAccess jsonParse verify admin with
  | (true, admin) =>
      let admin := admin.onPage (initializeWebSocket ctorThrows)
      showSection "dashboard" { admin with listening := true }
  | (false, admin) => admin

/-! ## The event loop of the admin page -/

/-- What the environment can do to the admin page between two tasks.

* `live event`: an event of the live channel or of the timer queue;
* `navClick item`: a click on the link of nav item `item`;
* `pullSettles index result`: the `apiRequest` call that the suspended
  loader at position `index` awaits settles with `result`;
* `retryClick loader`: a click on a Retry button that calls `loader`;
* `redirectTimeout index`: the pending timer of lines 40-42 at position
  `index`, whose delay has elapsed, runs. -/
inductive AdminEvent where
  | live (event : Event) : AdminEvent
  | navClick (item : Nat) : AdminEvent
  | pullSettles (index : Nat) (result : Settled) : AdminEvent
  | retryClick (loader : Loader) : AdminEvent
  | redirectTimeout (index : Nat) : AdminEvent

/-- One task of the admin page: `none` when the event cannot occur in
this state. -/
def adminStep (jsonParse : String → Except JsError JsVal) (admin : Admin) :
    AdminEvent → Option Admin
  | .live event =>
      match step jsonParse admin.page event with
      | none => none
      | some page => some { admin with page := page }
  | .navClick item =>
      if admin.listening then
        match admin.nav[item]? with
        | none => none
        | some link => some (showSection (substringFrom1 link.href) admin)
      else none
  | .pullSettles index result =>
      match admin.pulls[index]? with
      | none => none
      | some awaiting =>
          some (resume awaiting result { admin with pulls := admin.pulls.eraseIdx index })
  | .retryClick loader =>
      if loader ∈ retryControls admin then some (loader.start admin) else none
  | .redirectTimeout index =>
      match admin.redirects[index]? with
      | none => none
      | some due =>
          if due ≤ admin.page.now then
            some { admin with redirects := admin.redirects.eraseIdx index,
                              location := "../index.html" }
          else none

/-- A sequence of tasks of the admin page, in order. -/
def adminRun (jsonParse : String → Except JsError JsVal) : Admin → List AdminEvent → Option Admin
  | admin, [] => some admin
  | admin, event :: rest =>
      match adminStep jsonParse admin event with
      | none => none
      | some next => adminRun jsonParse next rest

/-- No channel has been constructed and no reconnect timer is pending. -/
def NoChannel (page : Page) : Prop :=
  page.sockets = [] ∧ reconnectTimers page = 0

/-! ## Sample inputs -/

/-- A 500 answer with a JSON error body. -/
def serverError : Response :=
  { contentType := some "application/json; charset=utf-8", status := 500,
    json := .ok (.obj [("error", .str "Database unavailable")]) }

/-- A 200 answer with a JSON payload. -/
def productSaved : Response :=
  { contentType := some "application/json; charset=utf-8", status := 200,
    json := .ok (.obj [("_id", .str "p1"), ("name", .str "Hammer")]) }

/-- A 502 answer that announces JSON and whose body does not parse. -/
def badGateway : Response :=
  { contentType := some "application/json", status := 502,
    json := .error ⟨"SyntaxError", "Unexpected token < in JSON at position 0"⟩ }

/-- A network that answers 500, 500 and then 200. -/
def flakyNetwork : Network :=
  fun k _ => if k < 2 then .ok serverError else .ok productSaved

/-- A network that always answers 200. -/
def healthyNetwork : Network :=
  fun _ _ => .ok productSaved

/-- A network that always answers 500. -/
def failingNetwork : Network :=
  fun _ _ => .ok serverError

/-- The options of the call at lines 432-435: a write. -/
def postProduct : Options :=
  { headers := [], rest := [("method", .str "POST"), ("body", .str "name=Hammer")] }

/-- Options that carry an `Authorization` header of their own. -/
def ownAuthorization : Options :=
  { headers := [("Authorization", "Basic YWRtaW46YWRtaW4=")], rest := [] }

/-- A `JSON.parse` that rejects every text. -/
def rejectAll : String → Except JsError JsVal :=
  fun _ => .error ⟨"SyntaxError", "Unexpected token"⟩

/-- The channel opens, closes at once, and the reconnect timer is due. -/
def closedEvents : List Event :=
  [.wsOpen 0, .wsClose 0, .advance 3000]

/-- The page after `closedEvents`: socket 0 is `CLOSED`, its keep-alive
timer and its reconnect timer are pending. -/
def closedPage : Page :=
  (run rejectAll (start false) closedEvents).getD Page.empty

/-- The page after the channel has opened. -/
def openPage : Page :=
  (run rejectAll (start false) [.wsOpen 0]).getD Page.empty

/-- A reconnect within the keep-alive period: socket 0 opens and closes,
the reconnect timer runs after 3 s and constructs socket 1, which opens;
25 s after the first ping the keep-alive timer of the first loop runs. -/
def reconnectEvents : List Event :=
  [.wsOpen 0, .wsClose 0, .advance 3000, .timeout 1 false, .wsOpen 1, .advance 22000,
    .timeout 0 false]

/-- The six sections of the console, as the document has them. -/
def sampleElements : List Element :=
  [⟨"dashboard", true, ""⟩, ⟨"products", true, ""⟩, ⟨"orders", true, ""⟩,
   ⟨"customers", true, ""⟩, ⟨"inquiries", true, ""⟩, ⟨"settings", true, ""⟩]

/-- The six nav items of the console. -/
def sampleNav : List NavItem :=
  [⟨"#dashboard", false⟩, ⟨"#products", false⟩, ⟨"#orders", false⟩,
   ⟨"#customers", false⟩, ⟨"#inquiries", false⟩, ⟨"#settings", false⟩]

/-- The stored text of an admin user. -/
def adminUserText : String := "\x7b\"role\":\"admin\"\x7d"

/-- The stored text of a customer. -/
def customerUserText : String := "\x7b\"role\":\"customer\"\x7d"

/-- The text of a `STATS_UPDATE` message. -/
def statsUpdateText : String :=
  "\x7b\"type\":\"STATS_UPDATE\",\"stats\":\x7b\"totalProducts\":12\x7d\x7d"

/-- The text of a `STOCK_ALERT` message for two remaining hammers. -/
def hammerAlertText : String :=
  "\x7b\"type\":\"STOCK_ALERT\",\"productName\":\"Hammer\",\"stock\":2\x7d"

/-- The text of a `STOCK_ALERT` message whose `productName` is an object
with an own `toString` property. -/
def unprintableAlertText : String :=
  "\x7b\"type\":\"STOCK_ALERT\",\"productName\":\x7b\"toString\":1\x7d,\"stock\":2\x7d"

/-- The value of `statsUpdateText`. -/
def statsUpdate : JsVal :=
  .obj [("type", .str "STATS_UPDATE"), ("stats", .obj [("totalProducts", .num "12")])]

/-- The value of `hammerAlertText`: the message `STOCK_ALERT` for two
remaining hammers. -/
def hammerAlert : JsVal :=
  .obj [("type", .str "STOCK_ALERT"), ("productName", .str "Hammer"), ("stock", .num "2")]

/-- The value of `unprintableAlertText`. -/
def unprintableAlert : JsVal :=
  .obj [("type", .str "STOCK_ALERT"), ("productName", .obj [("toString", .num "1")]),
    ("stock", .num "2")]

/-- A `JSON.parse` that knows the five texts above and rejects every other
text. -/
def sampleParse : String → Except JsError JsVal :=
  fun text =>
    if text = adminUserText then .ok (.obj [("role", .str "admin")])
    else if text = customerUserText then .ok (.obj [("role", .str "customer")])
    else if text = statsUpdateText then .ok statsUpdate
    else if text = hammerAlertText then .ok hammerAlert
    else if text = unprintableAlertText then .ok unprintableAlert
    else .error ⟨"SyntaxError", "Unexpected token"⟩

/-- A server that accepts every token. -/
def verifyAccepts : Request → FetchResult :=
  fun _ => .ok { contentType := some "application/json", status := 200, json := .ok (.obj []) }

/-- A server that rejects every token with 401. -/
def verifyRejects : Request → FetchResult :=
  fun _ => .ok { contentType := some "application/json", status := 401, json := .ok (.obj []) }

/-- The admin page after start-up with a stored admin user and an accepted
token: the channel is `CONNECTING`, the dashboard is shown and its first
pull is pending. -/
def loadedAdmin : Admin :=
  domContentLoaded sampleParse verifyAccepts false
    (Admin.initial sampleElements sampleNav (some adminUserText) (some "t0k3n"))

/-- A product. -/
def hammer : JsVal :=
  .obj [("_id", .str "p1"), ("name", .str "Hammer"), ("price", .num "12"), ("stock", .num "2")]

/-- Another product. -/
def drill : JsVal :=
  .obj [("_id", .str "p2"), ("name", .str "Drill"), ("price", .num "80"), ("stock", .num "5")]

/-- The admin page after the channel has opened, the dashboard active. -/
def dashboardAdmin : Admin :=
  (adminRun sampleParse loadedAdmin [.live (.wsOpen 0)]).getD loadedAdmin

/-- The admin page after the channel has opened and the section `orders`
has been chosen. -/
def ordersAdmin : Admin :=
  (adminRun sampleParse loadedAdmin [.live (.wsOpen 0), .navClick 2]).getD loadedAdmin

/-- The default `options = {}` of `apiRequest`. -/
def noOptions : Options :=
  { headers := [], rest := [] }

/-- The error of a pull that has failed on the network that always answers
500. -/
def pullError : JsError :=
  ⟨"Error", "Database unavailable"⟩

/-- The admin page after `products` and then `orders` have been chosen,
both pulls pending. -/
def ordersAfterProducts : Admin :=
  (adminRun sampleParse loadedAdmin [.navClick 1, .navClick 2]).getD loadedAdmin

/-- The admin page as loaded, with a stored admin user and a token. -/
def storedAdmin : Admin :=
  Admin.initial sampleElements sampleNav (some adminUserText) (some "t0k3n")

/-- The admin page as loaded, with a stored customer and a token. -/
def storedCustomer : Admin :=
  Admin.initial sampleElements sampleNav (some customerUserText) (some "t0k3n")

/-- The page of a rejected admin, 5 s after start-up. -/
def rejectedAdmin : Admin :=
  (adminRun sampleParse (domContentLoaded sampleParse verifyRejects false storedAdmin)
    [.live (.advance 5000)]).getD storedAdmin

/-- A 500 answer whose body is the JSON text `null`. -/
def nullBody : Response :=
  { contentType := some "application/json", status := 500, json := .ok .null }

/-- A 404 answer whose body is an empty JSON object. -/
def emptyBody : Response :=
  { contentType := some "application/json", status := 404, json := .ok (.obj []) }

/-- A 400 answer whose `error` is the number 42. -/
def numberError : Response :=
  { contentType := some "application/json", status := 400
    json := .ok (.obj [("error", .num "42")]) }

/-- A 400 answer whose `error` is an object with an own `toString`
property. -/
def unprintableError : Response :=
  { contentType := some "application/json", status := 400
    json := .ok (.obj [("error", .obj [("toString", .num "1")])]) }

/-- An HTML answer. -/
def htmlPage : Response :=
  { contentType := some "text/html", status := 200, json := .ok .null }

/-! ## Properties of `apiRequest` -/

/-- One unfolding of the loop when the attempt succeeds. -/
theorem whileRetries_succeed (network : Network) (request : Request) (retries : Int)
    (made : Nat) (done : List Effect) (payload : JsVal) (hpos : 0 < retries)
    (hok : tryBody (network made request) = .ok payload) :
    whileRetries network request retries made done =
      (.resolved payload, done ++ [.fetch request]) := by
  rw [whileRetries, if_pos hpos, hok]

/-- One unfolding of the loop when the last allowed attempt fails. -/
theorem whileRetries_fail_last (network : Network) (request : Request)
    (made : Nat) (done : List Effect) (error : JsError)
    (hfail : tryBody (network made request) = .error error) :
    whileRetries network request 1 made done =
      (.rejected error, done ++ [.fetch request]) := by
  rw [whileRetries, if_pos (by decide), hfail]
  simp

/-- One unfolding of the loop when an attempt fails and attempts remain. -/
theorem whileRetries_fail_more (network : Network) (request : Request) (n : Nat)
    (made : Nat) (done : List Effect) (error : JsError)
    (hfail : tryBody (network made request) = .error error) :
    whileRetries network request ((n : Int) + 2) made done =
      whileRetries network request ((n : Int) + 1) (made + 1)
        (done ++ [.fetch request, .delay 1000]) := by
  rw [whileRetries, if_pos (by omega), hfail]
  have h1 : ¬ ((n : Int) + 1 = 0) := by omega
  have h2 : (n : Int) + 2 - 1 = (n : Int) + 1 := by omega
  simp only [h2, if_neg h1]

/-- The loop is not entered when `retries` is not positive. -/
theorem whileRetries_not_entered (network : Network) (request : Request) (retries : Int)
    (made : Nat) (done : List Effect) (h : retries ≤ 0) :
    whileRetries network request retries made done = (.resolved .undefined, done) := by
  rw [whileRetries, if_neg (by omega)]

theorem fetchCount_append (a b : List Effect) :
    fetchCount (a ++ b) = fetchCount a + fetchCount b := by
  induction a with
  | nil => simp [fetchCount]
  | cons x rest ih =>
      cases x with
      | fetch r => simp [fetchCount, ih]; omega
      | delay ms => simp [fetchCount, ih]

theorem fetchRequests_append (a b : List Effect) :
    fetchRequests (a ++ b) = fetchRequests a ++ fetchRequests b := by
  induction a with
  | nil => simp [fetchRequests]
  | cons x rest ih =>
      cases x with
      | fetch r => simp [fetchRequests, ih]
      | delay ms => simp [fetchRequests, ih]

/-- The loop entered with `n + 1` attempts left, all of which fail: it makes
`n + 1` fetch calls and rejects with the error of the last one. -/
theorem whileRetries_all_fail (network : Network) (request : Request) (n : Nat) :
    ∀ (made : Nat) (done : List Effect),
      (∀ k, k ≤ n → ∃ e, tryBody (network (made + k) request) = .error e) →
      ∃ e, tryBody (network (made + n) request) = .error e ∧
        (whileRetries network request ((n : Int) + 1) made done).1 = .rejected e ∧
        fetchCount (whileRetries network request ((n : Int) + 1) made done).2 =
          fetchCount done + (n + 1) := by
  induction n with
  | zero =>
      intro made done hfail
      obtain ⟨e, he⟩ := hfail 0 (le_refl 0)
      have he0 : tryBody (network made request) = .error e := by simpa using he
      refine ⟨e, he, ?_, ?_⟩
      · have := whileRetries_fail_last network request made done e he0
        simp at this ⊢
        rw [this]
      · have := whileRetries_fail_last network request made done e he0
        simp at this ⊢
        rw [this]
        simp [fetchCount_append, fetchCount]
  | succ n ih =>
      intro made done hfail
      obtain ⟨e0, he0⟩ := hfail 0 (Nat.zero_le _)
      have he0 : tryBody (network made request) = .error e0 := by simpa using he0
      have hstep := whileRetries_fail_more network request n made done e0 he0
      have hcast : (((n + 1 : Nat) : Int) + 1) = (n : Int) + 2 := by push_cast; ring
      rw [hcast, hstep]
      obtain ⟨e, he, hres, hcount⟩ := ih (made + 1) (done ++ [.fetch request, .delay 1000])
        (fun k hk => by
          have := hfail (k + 1) (by omega)
          rwa [show made + (k + 1) = made + 1 + k by omega] at this)
      refine ⟨e, ?_, hres, ?_⟩
      · rwa [show made + (n + 1) = made + 1 + n by omega]
      · rw [hcount]
        simp [fetchCount_append, fetchCount]
        omega

/-- The loop entered with more than `k` attempts left, of which the first
`k` fail and the next succeeds: it makes `k + 1` fetch calls and resolves
with the payload of the last one. -/
theorem whileRetries_then_succeed (network : Network) (request : Request) (payload : JsVal)
    (k : Nat) :
    ∀ (retries : Int) (made : Nat) (done : List Effect),
      (k : Int) < retries →
      (∀ j, j < k → ∃ e, tryBody (network (made + j) request) = .error e) →
      tryBody (network (made + k) request) = .ok payload →
      (whileRetries network request retries made done).1 = .resolved payload ∧
      fetchCount (whileRetries network request retries made done).2 =
        fetchCount done + (k + 1) := by
  induction k with
  | zero =>
      intro retries made done hlt _ hok
      have hok0 : tryBody (network made request) = .ok payload := by simpa using hok
      rw [whileRetries_succeed network request retries made done payload (by simpa using hlt) hok0]
      simp [fetchCount_append, fetchCount]
  | succ k ih =>
      intro retries made done hlt hfail hok
      obtain ⟨e0, he0⟩ := hfail 0 (Nat.succ_pos _)
      have he0 : tryBody (network made request) = .error e0 := by simpa using he0
      obtain ⟨m, hm⟩ : ∃ m : Nat, retries = (m : Int) + 2 :=
        ⟨(retries - 2).toNat, by push_cast at hlt; omega⟩
      subst hm
      rw [whileRetries_fail_more network request m made done e0 he0]
      have := ih ((m : Int) + 1) (made + 1) (done ++ [.fetch request, .delay 1000])
        (by push_cast at hlt; omega)
        (fun j hj => by
          have := hfail (j + 1) (by omega)
          rwa [show made + (j + 1) = made + 1 + j by omega] at this)
        (by rwa [show made + (k + 1) = made + 1 + k by omega] at hok)
      refine ⟨this.1, ?_⟩
      rw [this.2]
      simp [fetchCount_append, fetchCount]
      omega

/-- An attempt fails exactly when `fetch` rejects, the content type is not
JSON, the status is not 2xx, or the body does not parse. -/
theorem tryBody_fails_iff (fetched : FetchResult) :
    (∃ e, tryBody fetched = .error e) ↔
      (∃ e, fetched = .error e) ∨
      ∃ response, fetched = .ok response ∧
        (invalidContentType response.contentType = true ∨ response.ok = false ∨
          ∃ e, response.json = .error e) := by
  cases fetched with
  | error e => simp [tryBody]
  | ok response =>
      simp only [tryBody, reduceCtorEq, exists_false, false_or, Except.ok.injEq, exists_eq_left']
      by_cases hct : invalidContentType response.contentType = true
      · simp [hct]
      · by_cases hok : response.ok = true
        · simp [hct, hok]
        · simp only [hct, hok]
          cases hj : response.json with
          | error e => simp
          | ok errorData =>
              cases hp : errorData.getProp "error" with
              | error e => simp [hp]
              | ok message =>
                  cases ht : (if message.truthy = true then message
                    else JsVal.str ("Request failed with status " ++
                      toString response.status)).toStr <;> simp [hp, ht]

/-- An attempt succeeds exactly on a 2xx response of JSON content type
whose body parses; its value is the parsed body. -/
theorem tryBody_ok_iff (fetched : FetchResult) (payload : JsVal) :
    tryBody fetched = .ok payload ↔
      ∃ response, fetched = .ok response ∧ invalidContentType response.contentType = false ∧
        response.ok = true ∧ response.json = .ok payload := by
  cases fetched with
  | error e => simp [tryBody]
  | ok response =>
      simp only [tryBody, Except.ok.injEq, exists_eq_left']
      by_cases hct : invalidContentType response.contentType = true
      · simp [hct]
      · by_cases hok : response.ok = true
        · simp [hct, hok]
        · simp only [hct, hok]
          cases hj : response.json with
          | error e => simp
          | ok errorData =>
              cases hp : errorData.getProp "error" with
              | error e => simp [hp]
              | ok message =>
                  cases ht : (if message.truthy = true then message
                    else JsVal.str ("Request failed with status " ++
                      toString response.status)).toStr <;> simp [hp, ht]

/-- Every `fetch` call of the loop is made with the request built at the
start of the call. -/
theorem whileRetries_requests (network : Network) (request : Request) (n : Nat) :
    ∀ (retries : Int) (made : Nat) (done : List Effect), retries.toNat = n →
      ∀ r ∈ fetchRequests (whileRetries network request retries made done).2,
        r ∈ fetchRequests done ∨ r = request := by
  induction n with
  | zero =>
      intro retries made done hn r hr
      rw [whileRetries_not_entered network request retries made done (by omega)] at hr
      exact Or.inl hr
  | succ n ih =>
      intro retries made done hn r hr
      cases hb : tryBody (network made request) with
      | ok payload =>
          rw [whileRetries_succeed network request retries made done payload (by omega) hb] at hr
          simpa [fetchRequests_append, fetchRequests] using hr
      | error e =>
          cases n with
          | zero =>
              have h1 : retries = 1 := by omega
              subst h1
              rw [whileRetries_fail_last network request made done e hb] at hr
              simpa [fetchRequests_append, fetchRequests] using hr
          | succ m =>
              have h2 : retries = (m : Int) + 2 := by omega
              subst h2
              rw [whileRetries_fail_more network request m made done e hb] at hr
              have := ih ((m : Int) + 1) (made + 1) (done ++ [.fetch request, .delay 1000])
                (by omega) r hr
              simpa [fetchRequests_append, fetchRequests] using this

theorem lookupField_setField {α : Type} (key k : String) (v : α) (l : List (String × α)) :
    lookupField key (setField k v l) = if k = key then some v else lookupField key l := by
  induction l with
  | nil => simp [setField, lookupField]
  | cons kv rest ih =>
      obtain ⟨k0, v0⟩ := kv
      by_cases h0 : k0 = k
      · subst h0
        simp only [setField, if_true, lookupField]
        by_cases h1 : k0 = key <;> simp [h1]
      · simp only [setField, if_neg h0, lookupField, ih]
        by_cases h1 : k0 = key
        · have : ¬ k = key := fun h => h0 (h1.trans h.symm)
          simp [h1, this]
        · simp [h1]

/-- A key that the spread object does not define keeps the value of the
base object. -/
theorem lookupField_spread_of_absent {α : Type} (key : String) (extra : List (String × α)) :
    ∀ base : List (String × α), lookupField key extra = none →
      lookupField key (spread base extra) = lookupField key base := by
  induction extra with
  | nil => intro base _; rfl
  | cons kv rest ih =>
      intro base h
      obtain ⟨k0, v0⟩ := kv
      have hk : ¬ k0 = key := by
        intro hk
        simp [lookupField, hk] at h
      have hrest : lookupField key rest = none := by
        simpa [lookupField, hk] using h
      have := ih (setField k0 v0 base) hrest
      simp only [spread, List.foldl_cons] at this ⊢
      rw [this, lookupField_setField, if_neg hk]

/-- The same facts for the loop entered with any positive `retries`: it
settles with the outcome of an attempt. -/
theorem whileRetries_outcome (network : Network) (request : Request) (n : Nat)
    (made : Nat) (done : List Effect) :
    (∃ k payload, k ≤ n ∧ tryBody (network (made + k) request) = .ok payload ∧
        (∀ j, j < k → ∃ e, tryBody (network (made + j) request) = .error e) ∧
        (whileRetries network request ((n : Int) + 1) made done).1 = .resolved payload ∧
        fetchCount (whileRetries network request ((n : Int) + 1) made done).2 =
          fetchCount done + (k + 1)) ∨
    ((∀ j, j ≤ n → ∃ e, tryBody (network (made + j) request) = .error e) ∧
      ∃ e, tryBody (network (made + n) request) = .error e ∧
        (whileRetries network request ((n : Int) + 1) made done).1 = .rejected e ∧
        fetchCount (whileRetries network request ((n : Int) + 1) made done).2 =
          fetchCount done + (n + 1)) := by
  by_cases hall : ∀ j, j ≤ n → ∃ e, tryBody (network (made + j) request) = .error e
  · exact Or.inr ⟨hall, whileRetries_all_fail network request n made done hall⟩
  · left
    have hex : ∃ k, k ≤ n ∧ ∃ payload, tryBody (network (made + k) request) = .ok payload := by
      by_contra hno
      apply hall
      intro j hj
      cases hb : tryBody (network (made + j) request) with
      | error e => exact ⟨e, rfl⟩
      | ok payload => exact absurd ⟨j, hj, payload, hb⟩ hno
    classical
    have hk := Nat.find_spec hex
    obtain ⟨hle, payload, hpay⟩ := hk
    have hbefore : ∀ j, j < Nat.find hex → ∃ e, tryBody (network (made + j) request) = .error e := by
      intro j hj
      have hmin := Nat.find_min hex hj
      cases hb : tryBody (network (made + j) request) with
      | error e => exact ⟨e, rfl⟩
      | ok p => exact absurd ⟨by omega, p, hb⟩ hmin
    have := whileRetries_then_succeed network request payload (Nat.find hex) ((n : Int) + 1)
      made done (by omega) hbefore hpay
    exact ⟨Nat.find hex, payload, hle, hpay, hbefore, this.1, this.2⟩

/-! ### Claims on `apiRequest` -/

/-- C1: for every positive `N`, endpoint and options, if each of the `N`
attempts fails, `apiRequest` makes exactly `N` fetch calls and rejects with
the error of the last attempt. -/
theorem apiRequest_all_attempts_fail (token : Option String) (network : Network)
    (endpoint : String) (options : Options) (N : Nat) (hN : 0 < N)
    (hfail : ∀ k, k < N →
      ∃ e, tryBody (network k (buildRequest token endpoint options)) = .error e) :
    ∃ e, tryBody (network (N - 1) (buildRequest token endpoint options)) = .error e ∧
      (apiRequest token network endpoint options N).1 = .rejected e ∧
      fetchCount (apiRequest token network endpoint options N).2 = N := by
  obtain ⟨n, rfl⟩ : ∃ n, N = n + 1 := ⟨N - 1, by omega⟩
  have h := whileRetries_all_fail network (buildRequest token endpoint options) n 0 []
    (fun k hk => by simpa using hfail k (by omega))
  simpa [apiRequest, fetchCount] using h

/-- C1, at a network that always answers 500, with `N = 2`. -/
theorem apiRequest_all_attempts_fail_witness :
    (apiRequest (some "t0k3n") failingNetwork "/products" postProduct 2).1 =
        .rejected ⟨"Error", "Database unavailable"⟩ ∧
      fetchCount (apiRequest (some "t0k3n") failingNetwork "/products" postProduct 2).2 = 2 := by
  obtain ⟨e, he, hres, hcount⟩ :=
    apiRequest_all_attempts_fail (some "t0k3n") failingNetwork "/products" postProduct 2
      (by decide) (fun _ _ => ⟨_, rfl⟩)
  have he2 : e = ⟨"Error", "Database unavailable"⟩ := by
    have h0 : tryBody (failingNetwork (2 - 1) (buildRequest (some "t0k3n") "/products" postProduct))
        = .error ⟨"Error", "Database unavailable"⟩ := rfl
    rw [h0] at he
    injection he with he
    exact he.symm
  subst he2
  exact ⟨hres, hcount⟩

/-- C2: for every `N` and `k < N`, if the first `k` attempts fail and
attempt `k + 1` is a 2xx JSON response whose body parses to `payload`,
`apiRequest` resolves to `payload` after exactly `k + 1` fetch calls. -/
theorem apiRequest_resolves_at_first_success (token : Option String) (network : Network)
    (endpoint : String) (options : Options) (N k : Nat) (hk : k < N)
    (response : Response) (payload : JsVal)
    (hfail : ∀ j, j < k →
      ∃ e, tryBody (network j (buildRequest token endpoint options)) = .error e)
    (hfetch : network k (buildRequest token endpoint options) = .ok response)
    (hct : invalidContentType response.contentType = false)
    (hok : response.ok = true)
    (hjson : response.json = .ok payload) :
    (apiRequest token network endpoint options N).1 = .resolved payload ∧
      fetchCount (apiRequest token network endpoint options N).2 = k + 1 := by
  have hsucc : tryBody (network k (buildRequest token endpoint options)) = .ok payload :=
    (tryBody_ok_iff _ payload).2 ⟨response, hfetch, hct, hok, hjson⟩
  have h := whileRetries_then_succeed network (buildRequest token endpoint options) payload k
    (N : Int) 0 [] (by exact_mod_cast hk) (fun j hj => by simpa using hfail j hj)
    (by simpa using hsucc)
  simpa [apiRequest, fetchCount] using h

/-- C2, at the scenario of the claim: a write answered 500, 500, 200 with
`N = 3` resolves to the 200 payload after exactly 3 fetch calls. -/
theorem apiRequest_resolves_at_first_success_witness :
    (apiRequest (some "t0k3n") flakyNetwork "/products" postProduct 3).1 =
        .resolved (.obj [("_id", .str "p1"), ("name", .str "Hammer")]) ∧
      fetchCount (apiRequest (some "t0k3n") flakyNetwork "/products" postProduct 3).2 = 3 :=
  apiRequest_resolves_at_first_success (some "t0k3n") flakyNetwork "/products" postProduct 3 2
    (by decide) productSaved _
    (fun j hj => ⟨⟨"Error", "Database unavailable"⟩, by
      have : flakyNetwork j (buildRequest (some "t0k3n") "/products" postProduct)
          = .ok serverError := by simp [flakyNetwork, hj]
      rw [this]; rfl⟩)
    rfl (by decide) (by decide) rfl

/-- C3, refuted as stated: with `retries = 0` (and with `retries = -1`) on
a network where every attempt would fail, `apiRequest` makes no fetch call
and resolves with `undefined`, a value that is the payload of no attempt; it
does not reject. -/
theorem apiRequest_nonpositive_retries_resolves_undefined :
    apiRequest (some "t0k3n") failingNetwork "/products" postProduct 0 =
        (.resolved .undefined, []) ∧
      apiRequest (some "t0k3n") failingNetwork "/products" postProduct (-1) =
        (.resolved .undefined, []) ∧
      ∀ k, tryBody (failingNetwork k (buildRequest (some "t0k3n") "/products" postProduct)) =
        .error ⟨"Error", "Database unavailable"⟩ :=
  ⟨whileRetries_not_entered _ _ 0 0 [] (by decide),
   whileRetries_not_entered _ _ (-1) 0 [] (by decide),
   fun _ => rfl⟩

/-- C3, amended: for every integer `retries` from 1 to 2^53 (the range in
which the decrement of line 168 is exact), `apiRequest` either resolves with
the payload of a successful attempt (the first one, all earlier attempts
having failed), or, every attempt having failed, rejects with the error of
the last attempt. -/
theorem apiRequest_settles_with_attempt_outcome (token : Option String) (network : Network)
    (endpoint : String) (options : Options) (retries : Int) (hpos : 0 < retries)
    (_hexact : retries ≤ 9007199254740992) :
    (∃ (k : Nat) (payload : JsVal), (k : Int) < retries ∧
        tryBody (network k (buildRequest token endpoint options)) = .ok payload ∧
        (∀ j, j < k →
          ∃ e, tryBody (network j (buildRequest token endpoint options)) = .error e) ∧
        (apiRequest token network endpoint options retries).1 = .resolved payload ∧
        fetchCount (apiRequest token network endpoint options retries).2 = k + 1) ∨
    ((∀ j : Nat, (j : Int) < retries →
        ∃ e, tryBody (network j (buildRequest token endpoint options)) = .error e) ∧
      ∃ e, tryBody (network (retries.toNat - 1) (buildRequest token endpoint options)) = .error e ∧
        (apiRequest token network endpoint options retries).1 = .rejected e ∧
        fetchCount (apiRequest token network endpoint options retries).2 = retries.toNat) := by
  obtain ⟨n, rfl⟩ : ∃ n : Nat, retries = (n : Int) + 1 := ⟨(retries - 1).toNat, by omega⟩
  have hn : ((n : Int) + 1).toNat = n + 1 := by omega
  rcases whileRetries_outcome network (buildRequest token endpoint options) n 0 [] with
    ⟨k, payload, hle, hpay, hbefore, hres, hcount⟩ | ⟨hall, e, he, hres, hcount⟩
  · left
    refine ⟨k, payload, by omega, by simpa using hpay,
      fun j hj => by simpa using hbefore j hj, hres, ?_⟩
    simpa [apiRequest, fetchCount] using hcount
  · right
    refine ⟨fun j hj => by simpa using hall j (by omega), e, ?_, hres, ?_⟩
    · rw [hn]; simpa using he
    · rw [hn]; simpa [apiRequest, fetchCount] using hcount

/-- C3 amended, at `retries = 3` on the network answering 500, 500, 200:
the call resolves with the payload of the third attempt. -/
theorem apiRequest_settles_with_attempt_outcome_witness :
    (∃ (k : Nat) (payload : JsVal), (k : Int) < 3 ∧
        tryBody (flakyNetwork k (buildRequest none "/orders" postProduct)) = .ok payload ∧
        (∀ j, j < k →
          ∃ e, tryBody (flakyNetwork j (buildRequest none "/orders" postProduct)) = .error e) ∧
        (apiRequest none flakyNetwork "/orders" postProduct 3).1 = .resolved payload ∧
        fetchCount (apiRequest none flakyNetwork "/orders" postProduct 3).2 = k + 1) ∨
    ((∀ j : Nat, (j : Int) < 3 →
        ∃ e, tryBody (flakyNetwork j (buildRequest none "/orders" postProduct)) = .error e) ∧
      ∃ e, tryBody (flakyNetwork ((3 : Int).toNat - 1) (buildRequest none "/orders" postProduct))
          = .error e ∧
        (apiRequest none flakyNetwork "/orders" postProduct 3).1 = .rejected e ∧
        fetchCount (apiRequest none flakyNetwork "/orders" postProduct 3).2 = (3 : Int).toNat) :=
  apiRequest_settles_with_attempt_outcome none flakyNetwork "/orders" postProduct 3 (by decide)
    (by decide)

/-- C4, refuted as stated: a 502 response of JSON content type whose body
does not parse makes the attempt fail with the error of `response.json()`
itself, not with the generic message for its status. -/
theorem tryBody_unparsable_error_body_keeps_parse_error :
    invalidContentType badGateway.contentType = false ∧ badGateway.ok = false ∧
      tryBody (.ok badGateway) =
        .error ⟨"SyntaxError", "Unexpected token < in JSON at position 0"⟩ ∧
      tryBody (.ok badGateway) ≠ .error ⟨"Error", "Request failed with status 502"⟩ := by
  refine ⟨by decide, by decide, rfl, ?_⟩
  have h : tryBody (.ok badGateway) =
      .error ⟨"SyntaxError", "Unexpected token < in JSON at position 0"⟩ := rfl
  rw [h]
  intro hcontra
  injection hcontra with hcontra
  exact absurd hcontra (by decide)

/-- C4, amended: a response whose content type is absent or does not
include `application/json` fails the attempt with `Invalid response format`,
whatever the status. Otherwise, for a non-2xx status, the attempt fails

* with the error of `response.json()` itself when the body does not parse;
* with the `TypeError` of the read of `error` when the body parses to
  `null`;
* with the generic `Request failed with status <status>` when the `error`
  value of the parsed body is absent or falsy;
* with an `Error` whose message is the text of the `error` value when that
  value is truthy and converts to text (the value itself for a non-empty
  string);
* with the `TypeError` of the conversion when the truthy `error` value does
  not convert (an object with an own `toString` property). -/
theorem tryBody_failure_message (response : Response) :
    (invalidContentType response.contentType = true →
      tryBody (.ok response) = .error ⟨"Error", "Invalid response format"⟩) ∧
    (invalidContentType response.contentType = false → response.ok = false →
      (∀ e, response.json = .error e → tryBody (.ok response) = .error e) ∧
      (response.json = .ok .null →
        tryBody (.ok response) =
          .error ⟨"TypeError", "Cannot read properties of null (reading \x27error\x27)"⟩) ∧
      (∀ errorData value, response.json = .ok errorData →
          errorData.getProp "error" = .ok value → value.truthy = false →
          tryBody (.ok response) =
            .error ⟨"Error", "Request failed with status " ++ toString response.status⟩) ∧
      (∀ errorData value text, response.json = .ok errorData →
          errorData.getProp "error" = .ok value → value.truthy = true →
          value.toStr = .ok text →
          tryBody (.ok response) = .error ⟨"Error", text⟩) ∧
      (∀ fields text, response.json = .ok (.obj fields) →
          lookupField "error" fields = some (.str text) → text ≠ "" →
          tryBody (.ok response) = .error ⟨"Error", text⟩) ∧
      (∀ errorData value e, response.json = .ok errorData →
          errorData.getProp "error" = .ok value → value.truthy = true →
          value.toStr = .error e →
          tryBody (.ok response) = .error e)) := by
  refine ⟨fun hct => by simp [tryBody, hct], fun hct hok => ⟨?_, ?_, ?_, ?_, ?_, ?_⟩⟩
  · intro e hjson
    simp [tryBody, hct, hok, hjson]
  · intro hjson
    simp only [tryBody, hct, hok, hjson, JsVal.getProp]
    rfl
  · intro errorData value hjson hprop hfalsy
    simp [tryBody, hct, hok, hjson, hprop, hfalsy, JsVal.toStr]
  · intro errorData value text hjson hprop htruthy htext
    simp [tryBody, hct, hok, hjson, hprop, htruthy, htext]
  · intro fields text hjson hfield htext
    simp [tryBody, hct, hok, hjson, JsVal.getProp, hfield, JsVal.truthy, htext, JsVal.toStr]
  · intro errorData value e hjson hprop htruthy hthrows
    simp [tryBody, hct, hok, hjson, hprop, htruthy, hthrows]

/-- C4 amended, at concrete responses: an HTML answer; a 502 answer whose
body does not parse; a 500 answer with body `null`; a 404 answer with an
empty JSON object; a 500 answer with an error text; a 400 answer whose
`error` is the number 42; a 400 answer whose `error` is an object with an
own `toString` property. -/
theorem tryBody_failure_message_witness :
    tryBody (.ok htmlPage) = .error ⟨"Error", "Invalid response format"⟩ ∧
      tryBody (.ok badGateway) =
        .error ⟨"SyntaxError", "Unexpected token < in JSON at position 0"⟩ ∧
      tryBody (.ok nullBody) =
        .error ⟨"TypeError", "Cannot read properties of null (reading \x27error\x27)"⟩ ∧
      tryBody (.ok emptyBody) = .error ⟨"Error", "Request failed with status 404"⟩ ∧
      tryBody (.ok serverError) = .error ⟨"Error", "Database unavailable"⟩ ∧
      tryBody (.ok numberError) = .error ⟨"Error", "42"⟩ ∧
      tryBody (.ok unprintableError) =
        .error ⟨"TypeError", "Cannot convert object to primitive value"⟩ :=
  ⟨(tryBody_failure_message htmlPage).1 (by decide),
   ((tryBody_failure_message badGateway).2 (by decide) (by decide)).1 _ rfl,
   ((tryBody_failure_message nullBody).2 (by decide) (by decide)).2.1 rfl,
   ((tryBody_failure_message emptyBody).2 (by decide) (by decide)).2.2.1 (.obj []) .undefined
      rfl rfl rfl,
   ((tryBody_failure_message serverError).2 (by decide) (by decide)).2.2.2.2.1
      [("error", .str "Database unavailable")] "Database unavailable" rfl rfl (by decide),
   ((tryBody_failure_message numberError).2 (by decide) (by decide)).2.2.2.1
      (.obj [("error", .num "42")]) (.num "42") "42" rfl rfl rfl rfl,
   ((tryBody_failure_message unprintableError).2 (by decide) (by decide)).2.2.2.2.2
      (.obj [("error", .obj [("toString", .num "1")])]) (.obj [("toString", .num "1")])
      notPrimitive rfl rfl rfl rfl⟩

/-- C5, refuted as stated: when `options.headers` has an `Authorization`
key of its own, the spread at line 152 overwrites the bearer header, and the
fetch call carries the header of the caller. -/
theorem apiRequest_own_authorization_overrides_bearer :
    (fetchRequests (apiRequest (some "t0k3n") flakyNetwork "/products" ownAuthorization 3).2).map
        (fun request => lookupField "Authorization" request.headers) =
      [some "Basic YWRtaW46YWRtaW4=", some "Basic YWRtaW46YWRtaW4=",
        some "Basic YWRtaW46YWRtaW4="] := by
  have e0 : tryBody (flakyNetwork 0 (buildRequest (some "t0k3n") "/products" ownAuthorization)) =
      .error ⟨"Error", "Database unavailable"⟩ := rfl
  have e1 : tryBody (flakyNetwork (0 + 1)
      (buildRequest (some "t0k3n") "/products" ownAuthorization)) =
      .error ⟨"Error", "Database unavailable"⟩ := rfl
  have e2 : tryBody (flakyNetwork (0 + 1 + 1)
      (buildRequest (some "t0k3n") "/products" ownAuthorization)) =
      .ok (.obj [("_id", .str "p1"), ("name", .str "Hammer")]) := rfl
  have h3 : ((3 : Int)) = ((1 : Nat) : Int) + 2 := by norm_num
  have h2 : (((1 : Nat) : Int) + 1) = ((0 : Nat) : Int) + 2 := by norm_num
  rw [apiRequest, h3, whileRetries_fail_more _ _ 1 _ _ _ e0, h2,
    whileRetries_fail_more _ _ 0 _ _ _ e1,
    whileRetries_succeed _ _ _ _ _ _ (by norm_num) e2]
  simp only [fetchRequests_append, fetchRequests, List.nil_append, List.append_nil,
    List.cons_append, List.map_cons, List.map_nil]
  have hl : lookupField "Authorization"
      (buildRequest (some "t0k3n") "/products" ownAuthorization).headers =
      some "Basic YWRtaW46YWRtaW4=" := by decide
  rw [hl]

/-- C5, amended: for every endpoint, every `retries` and every options
object whose `headers` have no `Authorization` key of their own, each fetch
call of `apiRequest` is made with `Authorization: Bearer <token>`, the token
being the one read from storage at the start of the call. -/
theorem apiRequest_sends_bearer_token (token : Option String) (network : Network)
    (endpoint : String) (options : Options) (retries : Int)
    (hown : lookupField "Authorization" options.headers = none) :
    ∀ request ∈ fetchRequests (apiRequest token network endpoint options retries).2,
      lookupField "Authorization" request.headers = some ("Bearer " ++ storedToString token) := by
  intro request hmem
  have h := whileRetries_requests network (buildRequest token endpoint options) retries.toNat
    retries 0 [] rfl request hmem
  have hreq : request = buildRequest token endpoint options := by
    simpa [fetchRequests] using h
  subst hreq
  simp only [buildRequest]
  rw [lookupField_spread_of_absent "Authorization" options.headers _ hown]
  simp [lookupField]

/-- C5 amended, at the write of lines 432-435 answered at once with 200:
the fetch call made carries `Authorization: Bearer t0k3n`. -/
theorem apiRequest_sends_bearer_token_witness :
    fetchRequests (apiRequest (some "t0k3n") healthyNetwork "/products" postProduct 3).2 =
        [buildRequest (some "t0k3n") "/products" postProduct] ∧
      lookupField "Authorization" (buildRequest (some "t0k3n") "/products" postProduct).headers =
        some ("Bearer " ++ storedToString (some "t0k3n")) := by
  have hok : tryBody (healthyNetwork 0 (buildRequest (some "t0k3n") "/products" postProduct)) =
      .ok (.obj [("_id", .str "p1"), ("name", .str "Hammer")]) := rfl
  have htrace : fetchRequests (apiRequest (some "t0k3n") healthyNetwork "/products"
      postProduct 3).2 = [buildRequest (some "t0k3n") "/products" postProduct] := by
    rw [apiRequest, whileRetries_succeed healthyNetwork _ 3 0 [] _ (by decide) hok]
    rfl
  exact ⟨htrace,
    apiRequest_sends_bearer_token (some "t0k3n") healthyNetwork "/products"
      postProduct 3 rfl _ (by rw [htrace]; exact List.mem_singleton.2 rfl)⟩

/-! ## Properties of the live channel -/

theorem countP_set_of_getElem? {α : Type} (p : α → Bool) (l : List α) (i : Nat) (old new : α)
    (h : l[i]? = some old) :
    (l.set i new).countP p + (if p old then 1 else 0) =
      l.countP p + (if p new then 1 else 0) := by
  induction l generalizing i with
  | nil => simp at h
  | cons x rest ih =>
      cases i with
      | zero =>
          simp only [List.getElem?_cons_zero, Option.some.injEq] at h
          subst h
          simp only [List.set_cons_zero, List.countP_cons]
          split_ifs <;> omega
      | succ j =>
          simp only [List.getElem?_cons_succ] at h
          have := ih j h
          simp only [List.set_cons_succ, List.countP_cons]
          omega

theorem countP_eraseIdx_of_getElem? {α : Type} (p : α → Bool) (l : List α) (k : Nat) (t : α)
    (h : l[k]? = some t) :
    (l.eraseIdx k).countP p + (if p t then 1 else 0) = l.countP p := by
  induction l generalizing k with
  | nil => simp at h
  | cons x rest ih =>
      cases k with
      | zero =>
          simp only [List.getElem?_cons_zero, Option.some.injEq] at h
          subst h
          simp only [List.eraseIdx_cons_zero, List.countP_cons]
      | succ j =>
          simp only [List.getElem?_cons_succ] at h
          have := ih j h
          simp only [List.eraseIdx_cons_succ, List.countP_cons]
          omega

theorem mem_of_mem_eraseIdx {α : Type} (l : List α) (k : Nat) (t : α)
    (h : t ∈ l.eraseIdx k) : t ∈ l := by
  induction l generalizing k with
  | nil => simp at h
  | cons x rest ih =>
      cases k with
      | zero =>
          simp only [List.eraseIdx_cons_zero] at h
          exact List.mem_cons_of_mem _ h
      | succ j =>
          simp only [List.eraseIdx_cons_succ, List.mem_cons] at h
          rcases h with h | h
          · exact h ▸ List.mem_cons_self _ _
          · exact List.mem_cons_of_mem _ (ih j h)

theorem Quiet.refl (page : Page) : Quiet page page :=
  ⟨rfl, rfl, [], by simp, by simp⟩

theorem Quiet.trans {a b c : Page} (hab : Quiet a b) (hbc : Quiet b c) : Quiet a c := by
  obtain ⟨hs1, hw1, e1, ht1, he1⟩ := hab
  obtain ⟨hs2, hw2, e2, ht2, he2⟩ := hbc
  refine ⟨hs2.trans hs1, hw2.trans hw1, e1 ++ e2, by rw [ht2, ht1, List.append_assoc], ?_⟩
  intro t ht
  rcases List.mem_append.1 ht with h | h
  · exact he1 t h
  · exact he2 t h

theorem quiet_consoleLog (label : String) (page : Page) : Quiet page (consoleLog label page) :=
  ⟨rfl, rfl, [], by simp [consoleLog], by simp⟩

theorem quiet_setTimeout (callback : Callback) (delay : Nat) (page : Page)
    (h : callback.isReconnect = false) : Quiet page (setTimeout callback delay page) :=
  ⟨rfl, rfl, [⟨callback, page.now + delay⟩], rfl, by simpa using h⟩

theorem quiet_pingServer (page : Page) : Quiet page (pingServer page) := by
  unfold pingServer
  split
  · exact Quiet.refl _
  · split
    · exact ⟨rfl, rfl, [⟨.pingServer, page.now + 25000⟩], rfl, by simp [Callback.isReconnect]⟩
    · exact Quiet.refl _

theorem quiet_showNotification (message type : String) (page : Page) :
    Quiet page (showNotification message type page) :=
  ⟨rfl, rfl, [⟨.displayNotification page.notifications.length, page.now + 100⟩,
      ⟨.removeNotification page.notifications.length, page.now + 3000⟩],
    by simp [showNotification, setTimeout], by simp [Callback.isReconnect]⟩

theorem quiet_updateNotification (id : Nat) (f : Notification → Notification) (page : Page) :
    Quiet page (updateNotification id f page) :=
  ⟨rfl, rfl, [], by simp [updateNotification], by simp⟩

theorem quiet_handleWebSocketMessage (data : JsVal) (page : Page) :
    Quiet page (handleWebSocketMessage data page).1 := by
  unfold handleWebSocketMessage
  repeat' split
  all_goals first | exact Quiet.refl _ | exact quiet_showNotification _ _ _

theorem quiet_onmessage (jsonParse : String → Except JsError JsVal) (data : String)
    (page : Page) : Quiet page (onmessage jsonParse data page).1 := by
  unfold onmessage
  split
  · exact quiet_consoleLog _ _
  · rename_i parsed _
    have hq : Quiet page { page with dispatched := page.dispatched ++ [parsed] } :=
      ⟨rfl, rfl, [], by simp, by simp⟩
    have hh := quiet_handleWebSocketMessage parsed
      { page with dispatched := page.dispatched ++ [parsed] }
    split
    · rename_i p1 heq
      rw [heq] at hh
      exact hq.trans hh
    · rename_i p1 e heq
      rw [heq] at hh
      exact (hq.trans hh).trans (quiet_consoleLog _ _)

theorem invariant_of_quiet {a b : Page} (ha : Invariant a) (hq : Quiet a b) : Invariant b := by
  obtain ⟨hsum, hws, hguard⟩ := ha
  obtain ⟨hs, hw, extra, ht, hextra⟩ := hq
  have hcount : extra.countP (fun t => t.callback.isReconnect) = 0 := by
    rw [List.countP_eq_zero]
    intro t htmem
    simp [hextra t htmem]
  refine ⟨?_, ?_, ?_⟩
  · simp only [liveChannels, reconnectTimers, hs, ht, List.countP_append, hcount] at hsum ⊢
    simpa using hsum
  · rw [hw, hs]
    exact hws
  · intro t htmem hcb
    rw [hs]
    rw [ht] at htmem
    rcases List.mem_append.1 htmem with h | h
    · exact hguard t h hcb
    · have := hextra t h
      rw [hcb] at this
      exact absurd this (by decide)

/-- A socket that has not closed changes to a state other than `CLOSED`. -/
theorem invariant_set_live {page : Page} (i : Nat) (old new : ReadyState)
    (hinv : Invariant page) (hold : page.sockets[i]? = some old)
    (hlive : old ≠ .CLOSED) (hnew : new ≠ .CLOSED) :
    Invariant { page with sockets := page.sockets.set i new } := by
  obtain ⟨hsum, hws, hguard⟩ := hinv
  have hc := countP_set_of_getElem? (fun r => r != ReadyState.CLOSED) page.sockets i old new hold
  simp only [bne_iff_ne, ne_eq, hlive, not_false_eq_true, if_true, hnew] at hc
  refine ⟨?_, ?_, ?_⟩
  · simp only [liveChannels, reconnectTimers] at hsum ⊢
    omega
  · cases hw : page.ws with
    | none =>
        rw [hw] at hws
        simp [hws] at hold
    | some j =>
        rw [hw] at hws
        simpa using hws
  · intro t ht hcb
    have := hguard t ht hcb
    intro hnil
    apply this
    have hlen : (page.sockets.set i new).length = 0 := by
      simp only at hnil
      rw [hnil]; rfl
    rw [List.length_set] at hlen
    exact List.length_eq_zero.1 hlen

/-- A socket that has not closed fires `close`. -/
theorem invariant_close {page : Page} (i : Nat) (old : ReadyState)
    (hinv : Invariant page) (hold : page.sockets[i]? = some old) (hlive : old ≠ .CLOSED) :
    Invariant (onclose { page with sockets := page.sockets.set i .CLOSED }) := by
  obtain ⟨hsum, hws, hguard⟩ := hinv
  have hc := countP_set_of_getElem? (fun r => r != ReadyState.CLOSED) page.sockets i old
    .CLOSED hold
  simp only [bne_iff_ne, ne_eq, hlive, not_false_eq_true, if_true, not_true_eq_false,
    if_false] at hc
  have hne : page.sockets ≠ [] := by
    intro hnil
    simp [hnil] at hold
  refine ⟨?_, ?_, ?_⟩
  · simp only [liveChannels, reconnectTimers, onclose, setTimeout, consoleLog,
      List.countP_append, List.countP_cons, List.countP_nil, Callback.isReconnect] at hsum ⊢
    simp only [if_true]
    omega
  · simp only [onclose, setTimeout, consoleLog]
    cases hw : page.ws with
    | none =>
        rw [hw] at hws
        exact absurd hws hne
    | some j =>
        rw [hw] at hws
        simpa using hws
  · intro t _ _
    simp only [onclose, setTimeout, consoleLog]
    intro hnil
    apply hne
    have hlen : (page.sockets.set i .CLOSED).length = 0 := by rw [hnil]; rfl
    rw [List.length_set] at hlen
    exact List.length_eq_zero.1 hlen

/-- A call of `initializeWebSocket` while no channel is live and no
reconnect timer is pending. -/
theorem invariant_initializeWebSocket {page : Page} (ctorThrows : Bool)
    (hzero : liveChannels page + reconnectTimers page = 0)
    (hws : match page.ws with
      | none => page.sockets = []
      | some i => i < page.sockets.length)
    (hguard : ∀ t ∈ page.timers, t.callback = .reconnectIfClosed → page.sockets ≠ []) :
    Invariant (initializeWebSocket ctorThrows page) := by
  cases ctorThrows with
  | true =>
      refine ⟨?_, ?_, ?_⟩
      · simp only [liveChannels, reconnectTimers, initializeWebSocket, setTimeout, consoleLog,
          List.countP_append, List.countP_cons, List.countP_nil, Callback.isReconnect,
          if_true] at hzero ⊢
        omega
      · simpa [initializeWebSocket, setTimeout, consoleLog] using hws
      · intro t ht hcb
        simp only [initializeWebSocket, setTimeout, consoleLog, if_true, List.mem_append,
          List.mem_singleton] at ht ⊢
        rcases ht with h | h
        · exact hguard t h hcb
        · rw [h] at hcb
          simp at hcb
  | false =>
      refine ⟨?_, ?_, ?_⟩
      · simp only [liveChannels, reconnectTimers, initializeWebSocket, List.countP_append,
          List.countP_cons, List.countP_nil] at hzero ⊢
        simp
        omega
      · simp [initializeWebSocket]
      · intro t _ _
        simp [initializeWebSocket]

/-- Removal of the timer that runs: the budget of the invariant is freed
when it is a reconnect timer. -/
theorem invariant_erase {page : Page} (k : Nat) (timer : Timer)
    (hinv : Invariant page) (hk : page.timers[k]? = some timer) :
    liveChannels { page with timers := page.timers.eraseIdx k } +
        reconnectTimers { page with timers := page.timers.eraseIdx k } +
        (if timer.callback.isReconnect then 1 else 0) ≤ 1 ∧
      (match page.ws with
        | none => page.sockets = []
        | some i => i < page.sockets.length) ∧
      ∀ t ∈ page.timers.eraseIdx k, t.callback = .reconnectIfClosed → page.sockets ≠ [] := by
  obtain ⟨hsum, hws, hguard⟩ := hinv
  have hc := countP_eraseIdx_of_getElem? (fun t : Timer => t.callback.isReconnect)
    page.timers k timer hk
  refine ⟨?_, hws, fun t ht hcb => hguard t (mem_of_mem_eraseIdx _ _ _ ht) hcb⟩
  simp only [liveChannels, reconnectTimers] at hsum hc ⊢
  omega

theorem invariant_of_erase {page : Page} (k : Nat) (timer : Timer)
    (hinv : Invariant page) (hk : page.timers[k]? = some timer) :
    Invariant { page with timers := page.timers.eraseIdx k } := by
  obtain ⟨hsum, hws, hguard⟩ := invariant_erase k timer hinv hk
  exact ⟨by omega, hws, hguard⟩

/-- The invariant holds at start-up. -/
theorem invariant_start (ctorThrows : Bool) : Invariant (start ctorThrows) :=
  invariant_initializeWebSocket ctorThrows (by simp [liveChannels, reconnectTimers, Page.empty])
    (by simp [Page.empty]) (by simp [Page.empty])

/-- Every task preserves the invariant. -/
theorem invariant_step (jsonParse : String → Except JsError JsVal) {page next : Page}
    (event : Event) (hinv : Invariant page) (hstep : step jsonParse page event = some next) :
    Invariant next := by
  cases event with
  | wsOpen i =>
      simp only [step] at hstep
      split at hstep
      · rename_i hsock
        injection hstep with hstep
        subst hstep
        have h1 := invariant_set_live i .CONNECTING .OPEN hinv hsock (by decide) (by decide)
        exact invariant_of_quiet h1 ((quiet_consoleLog _ _).trans (quiet_pingServer _))
      · exact absurd hstep (by simp)
  | wsMessage i data =>
      simp only [step] at hstep
      split at hstep
      · injection hstep with hstep
        subst hstep
        exact invariant_of_quiet hinv (quiet_onmessage jsonParse data page)
      · exact absurd hstep (by simp)
  | wsError i =>
      simp only [step] at hstep
      split at hstep
      · injection hstep with hstep
        subst hstep
        exact invariant_of_quiet hinv (quiet_consoleLog _ _)
      · exact absurd hstep (by simp)
  | wsClosing i =>
      simp only [step] at hstep
      split at hstep
      · rename_i hsock
        injection hstep with hstep
        subst hstep
        exact invariant_set_live i .OPEN .CLOSING hinv hsock (by decide) (by decide)
      · exact absurd hstep (by simp)
  | wsClose i =>
      simp only [step] at hstep
      split at hstep
      · exact absurd hstep (by simp)
      · exact absurd hstep (by simp)
      · rename_i old hne hsock
        injection hstep with hstep
        subst hstep
        exact invariant_close i old hinv hsock (fun hr => hne (by rw [hr]))
  | advance ms =>
      simp only [step] at hstep
      injection hstep with hstep
      subst hstep
      exact hinv
  | timeout k ctorThrows =>
      simp only [step] at hstep
      split at hstep
      · exact absurd hstep (by simp)
      · rename_i timer hk
        split at hstep
        · injection hstep with hstep
          subst hstep
          have herase := invariant_erase k timer hinv hk
          have hinv0 := invariant_of_erase k timer hinv hk
          cases hcb : timer.callback with
          | reconnectIfClosed =>
              rw [hcb] at herase
              simp only [Callback.isReconnect, if_true] at herase
              simp only [runCallback]
              split
              · exact hinv0
              · split
                · exact invariant_initializeWebSocket ctorThrows (by omega) herase.2.1 herase.2.2
                · exact hinv0
          | initializeWebSocket =>
              rw [hcb] at herase
              simp only [Callback.isReconnect, if_true] at herase
              simp only [runCallback]
              exact invariant_initializeWebSocket ctorThrows (by omega) herase.2.1 herase.2.2
          | pingServer =>
              simp only [runCallback]
              exact invariant_of_quiet hinv0 (quiet_pingServer _)
          | displayNotification id =>
              simp only [runCallback]
              exact invariant_of_quiet hinv0 (quiet_updateNotification _ _ _)
          | removeNotification id =>
              simp only [runCallback]
              exact invariant_of_quiet hinv0 (quiet_updateNotification _ _ _)
        · exact absurd hstep (by simp)
  | clickClose id =>
      simp only [step] at hstep
      split at hstep
      · injection hstep with hstep
        subst hstep
        exact invariant_of_quiet hinv (quiet_updateNotification _ _ _)
      · exact absurd hstep (by simp)

theorem invariant_run (jsonParse : String → Except JsError JsVal) (events : List Event) :
    ∀ {page next : Page}, Invariant page → run jsonParse page events = some next →
      Invariant next := by
  induction events with
  | nil =>
      intro page next hinv hrun
      simp only [run] at hrun
      injection hrun with hrun
      exact hrun ▸ hinv
  | cons event rest ih =>
      intro page next hinv hrun
      simp only [run] at hrun
      split at hrun
      · exact absurd hrun (by simp)
      · rename_i mid hstep
        exact ih (invariant_step jsonParse event hinv hstep) hrun

/-- Every reachable state satisfies the invariant. -/
theorem invariant_of_reachable (jsonParse : String → Except JsError JsVal) {page : Page}
    (h : Reachable jsonParse page) : Invariant page := by
  obtain ⟨ctorThrows, events, hrun⟩ := h
  exact invariant_run jsonParse events (invariant_start ctorThrows) hrun

theorem activeChannels_le_liveChannels (page : Page) :
    activeChannels page ≤ liveChannels page := by
  unfold activeChannels liveChannels
  apply List.countP_mono_left
  intro r _ hr
  cases r <;> simp_all

/-- A task that runs a timer and constructs a socket ran a reconnect timer. -/
theorem timeout_constructs_only_from_reconnect (jsonParse : String → Except JsError JsVal)
    {page next : Page} (k : Nat) (ctorThrows : Bool)
    (hstep : step jsonParse page (.timeout k ctorThrows) = some next)
    (hgrow : page.sockets.length < next.sockets.length) :
    ∃ timer, page.timers[k]? = some timer ∧ timer.callback.isReconnect = true := by
  simp only [step] at hstep
  split at hstep
  · exact absurd hstep (by simp)
  · rename_i timer hk
    refine ⟨timer, hk, ?_⟩
    split at hstep
    · injection hstep with hstep
      subst hstep
      cases hcb : timer.callback with
      | reconnectIfClosed => rfl
      | initializeWebSocket => rfl
      | pingServer =>
          rw [hcb] at hgrow
          have := (quiet_pingServer { page with timers := page.timers.eraseIdx k }).1
          simp only [runCallback, this] at hgrow
          exact absurd hgrow (lt_irrefl _)
      | displayNotification id =>
          rw [hcb] at hgrow
          simp [runCallback, updateNotification] at hgrow
      | removeNotification id =>
          rw [hcb] at hgrow
          simp [runCallback, updateNotification] at hgrow
    · exact absurd hstep (by simp)

/-- While a reconnect timer is pending, no channel is live. -/
theorem no_live_channel_of_reconnect_pending {page : Page} (k : Nat) (timer : Timer)
    (hinv : Invariant page) (hk : page.timers[k]? = some timer)
    (hcb : timer.callback.isReconnect = true) : liveChannels page = 0 := by
  have h := (invariant_erase k timer hinv hk).1
  simp only [hcb, if_true, liveChannels, reconnectTimers] at h ⊢
  omega

/-! ### Claims on the live channel -/

/-- C6: in every state reachable from page start-up by open, message,
error and close events and timer firings, at most one channel is
`CONNECTING` or `OPEN`; and a timer that constructs a new channel runs only
when no channel is `CONNECTING` or `OPEN`. -/
theorem at_most_one_active_channel (jsonParse : String → Except JsError JsVal) (page : Page)
    (hreach : Reachable jsonParse page) :
    activeChannels page ≤ 1 ∧
      ∀ k ctorThrows next, step jsonParse page (.timeout k ctorThrows) = some next →
        page.sockets.length < next.sockets.length → activeChannels page = 0 := by
  have hinv := invariant_of_reachable jsonParse hreach
  have hle := activeChannels_le_liveChannels page
  refine ⟨le_trans hle (le_trans (Nat.le_add_right _ _) hinv.1), ?_⟩
  intro k ctorThrows next hstep hgrow
  obtain ⟨timer, hk, hcb⟩ := timeout_constructs_only_from_reconnect jsonParse k ctorThrows
    hstep hgrow
  have := no_live_channel_of_reconnect_pending k timer hinv hk hcb
  omega

/-- C6, at the page where socket 0 has closed and its reconnect timer is
due: no channel is active, and the timer constructs socket 1. -/
theorem at_most_one_active_channel_witness :
    Reachable rejectAll closedPage ∧ activeChannels closedPage ≤ 1 ∧
      (step rejectAll closedPage (.timeout 1 false)).map (fun next => next.sockets) =
        some [.CLOSED, .CONNECTING] ∧
      activeChannels closedPage = 0 :=
  have hreach : Reachable rejectAll closedPage := ⟨false, closedEvents, rfl⟩
  ⟨hreach, (at_most_one_active_channel rejectAll closedPage hreach).1, rfl,
    (at_most_one_active_channel rejectAll closedPage hreach).2 1 false
      (initializeWebSocket false { closedPage with timers := closedPage.timers.eraseIdx 1 })
      rfl (by decide)⟩

/-- C7, refuted as stated: `initializeWebSocket` called again while the
current channel is `OPEN` constructs a second channel; the two are active
together, and when the second opens a second keep-alive loop starts. -/
theorem initializeWebSocket_again_constructs_channel :
    openPage.sockets = [.OPEN] ∧ keepAliveLoops openPage = 1 ∧
      (initializeWebSocket false openPage).sockets = [.OPEN, .CONNECTING] ∧
      activeChannels (initializeWebSocket false openPage) = 2 ∧
      (step rejectAll (initializeWebSocket false openPage) (.wsOpen 1)).map
        (fun next => (activeChannels next, keepAliveLoops next)) = some (2, 2) := by
  refine ⟨rfl, rfl, rfl, rfl, rfl⟩

/-- C7, amended: the reconnect callback that `onclose` registers (lines
95-99) is a no-op whenever the current channel is `OPEN` or `CONNECTING`: the
task removes the timer and changes nothing else, so no channel is
constructed and no keep-alive loop is started. -/
theorem reconnect_callback_noop_while_active (jsonParse : String → Except JsError JsVal)
    (page : Page) (k : Nat) (timer : Timer) (ctorThrows : Bool)
    (hk : page.timers[k]? = some timer) (hcb : timer.callback = .reconnectIfClosed)
    (hdue : timer.due ≤ page.now)
    (hactive : page.wsReadyState = some .OPEN ∨ page.wsReadyState = some .CONNECTING) :
    step jsonParse page (.timeout k ctorThrows) =
      some { page with timers := page.timers.eraseIdx k } := by
  simp only [step, hk, hdue, if_true, hcb, runCallback]
  unfold Page.wsReadyState at hactive
  cases hws : page.ws with
  | none => rfl
  | some i =>
      rw [hws] at hactive
      have hne : page.sockets[i]? ≠ some .CLOSED := by
        simp only at hactive
        rcases hactive with h | h <;> rw [h] <;> simp
      simp [hne]

/-- C7 amended, at the page where socket 0 has closed, its reconnect timer
is pending, and `initializeWebSocket` has been called by hand: the timer
finds the new channel `CONNECTING` and does nothing. -/
theorem reconnect_callback_noop_while_active_witness :
    (initializeWebSocket false closedPage).wsReadyState = some .CONNECTING ∧
      step rejectAll (initializeWebSocket false closedPage) (.timeout 1 false) =
        some { initializeWebSocket false closedPage with
          timers := (initializeWebSocket false closedPage).timers.eraseIdx 1 } :=
  ⟨rfl, reconnect_callback_noop_while_active rejectAll (initializeWebSocket false closedPage) 1
    ⟨.reconnectIfClosed, 3000⟩ false rfl rfl (by decide) (Or.inr rfl)⟩

/-- C8, the code at the failing input: socket 0 opens (first ping, first
keep-alive loop) and closes; the reconnect timer constructs socket 1, which
opens (second loop). When the timer of the first loop runs, 25 s after the
first ping, `pingServer` finds `ws` (socket 1) `OPEN`: the loop started by
socket 0 sends a ping on socket 1 and goes on, so two keep-alive loops are
pending. -/
theorem keep_alive_loop_survives_reconnect :
    (run rejectAll (start false) reconnectEvents).map
        (fun page => (page.sockets, page.sent, page.timers, keepAliveLoops page)) =
      some ([.CLOSED, .OPEN], [(0, pingText), (1, pingText), (1, pingText)],
        [⟨.pingServer, 28000⟩, ⟨.pingServer, 50000⟩], 2) := by
  rfl

/-- While a timer of lines 95-99 is pending in a state of the invariant,
`ws` refers to a `CLOSED` socket. -/
theorem ws_closed_of_guarded_pending {page : Page} (k : Nat) (timer : Timer)
    (hinv : Invariant page) (hk : page.timers[k]? = some timer)
    (hcb : timer.callback = .reconnectIfClosed) :
    ∃ i, page.ws = some i ∧ page.sockets[i]? = some .CLOSED := by
  have hlive := no_live_channel_of_reconnect_pending k timer hinv hk (by rw [hcb]; rfl)
  obtain ⟨_, hws, hguard⟩ := hinv
  have hmem : timer ∈ page.timers := by
    obtain ⟨hlt, hget⟩ := List.getElem?_eq_some_iff.1 hk
    exact hget ▸ List.getElem_mem hlt
  have hne := hguard timer hmem hcb
  cases hw : page.ws with
  | none =>
      rw [hw] at hws
      exact absurd hws hne
  | some i =>
      rw [hw] at hws
      simp only at hws
      refine ⟨i, rfl, ?_⟩
      rw [List.getElem?_eq_getElem hws]
      simp only [liveChannels, List.countP_eq_zero] at hlive
      have := hlive (page.sockets[i]) (List.getElem_mem hws)
      simpa using this

/-- C9, refuted as stated: the `error` event schedules no reconnect. At
start-up, socket 0 fires `error`: the handler logs, and no timer is
pending afterwards. -/
theorem error_event_schedules_no_reconnect :
    (step rejectAll (start false) (.wsError 0)).map
        (fun next => (next.timers, reconnectTimers next, next.sockets, next.console)) =
      some ([], 0, [.CONNECTING], ["WebSocket error:"]) := by
  rfl

/-- C9, amended: on every `close` event of a channel, and on a failure to
construct one, exactly one reconnect timer is registered, due 3000 ms
later whatever the state (no backoff); the `error` event registers none;
and in every state reachable from start-up a reconnect timer that runs
calls `initializeWebSocket`. -/
theorem reconnect_scheduling (jsonParse : String → Except JsError JsVal) (page : Page) :
    (∀ i next, step jsonParse page (.wsClose i) = some next →
        next.timers = page.timers ++ [⟨.reconnectIfClosed, page.now + 3000⟩] ∧
        next.sockets = page.sockets.set i .CLOSED) ∧
    ((initializeWebSocket true page).timers =
        page.timers ++ [⟨.initializeWebSocket, page.now + 3000⟩] ∧
      (initializeWebSocket true page).sockets = page.sockets) ∧
    (∀ i next, step jsonParse page (.wsError i) = some next →
        next.timers = page.timers ∧ next.sockets = page.sockets) ∧
    (Reachable jsonParse page → ∀ k timer ctorThrows, page.timers[k]? = some timer →
        timer.callback.isReconnect = true → timer.due ≤ page.now →
        step jsonParse page (.timeout k ctorThrows) =
          some (initializeWebSocket ctorThrows
            { page with timers := page.timers.eraseIdx k })) := by
  refine ⟨?_, ⟨rfl, rfl⟩, ?_, ?_⟩
  · intro i next hstep
    simp only [step] at hstep
    split at hstep
    · exact absurd hstep (by simp)
    · exact absurd hstep (by simp)
    · injection hstep with hstep
      subst hstep
      exact ⟨rfl, rfl⟩
  · intro i next hstep
    simp only [step] at hstep
    split at hstep
    · injection hstep with hstep
      subst hstep
      exact ⟨rfl, rfl⟩
    · exact absurd hstep (by simp)
  · intro hreach k timer ctorThrows hk hcb hdue
    have hinv := invariant_of_reachable jsonParse hreach
    simp only [step, hk, hdue, if_true]
    cases hc : timer.callback with
    | reconnectIfClosed =>
        obtain ⟨i, hws, hclosed⟩ := ws_closed_of_guarded_pending k timer hinv hk hc
        simp [runCallback, hws, hclosed]
    | initializeWebSocket => rfl
    | pingServer => rw [hc] at hcb; exact absurd hcb (by decide)
    | displayNotification id => rw [hc] at hcb; simp [Callback.isReconnect] at hcb
    | removeNotification id => rw [hc] at hcb; simp [Callback.isReconnect] at hcb

/-- C9 amended, at the page where socket 0 is `OPEN`: its `close` registers
one reconnect timer due 3000 ms later, which, run when due, constructs
socket 1. -/
theorem reconnect_scheduling_witness :
    (∀ next, step rejectAll openPage (.wsClose 0) = some next →
        next.timers = openPage.timers ++ [⟨.reconnectIfClosed, openPage.now + 3000⟩] ∧
        next.sockets = openPage.sockets.set 0 .CLOSED) ∧
      Reachable rejectAll closedPage ∧
      step rejectAll closedPage (.timeout 1 false) =
        some (initializeWebSocket false
          { closedPage with timers := closedPage.timers.eraseIdx 1 }) :=
  ⟨(reconnect_scheduling rejectAll openPage).1 0,
   ⟨false, closedEvents, rfl⟩,
   (reconnect_scheduling rejectAll closedPage).2.2.2 ⟨false, closedEvents, rfl⟩ 1
      ⟨.reconnectIfClosed, 3000⟩ false rfl rfl (by decide)⟩

/-- C10: for every message whose data `JSON.parse` rejects, the `message`
handler logs and does nothing else: `handleWebSocketMessage` is not called,
no error escapes, and the sockets, `ws`, the timers and all other state are
as before. -/
theorem onmessage_drops_malformed (jsonParse : String → Except JsError JsVal)
    (data : String) (page : Page) (e : JsError) (hbad : jsonParse data = .error e) :
    onmessage jsonParse data page =
        ({ page with console := page.console ++ ["Error handling WebSocket message:"] }, none) ∧
      (onmessage jsonParse data page).1.dispatched = page.dispatched ∧
      (onmessage jsonParse data page).1.sockets = page.sockets ∧
      (onmessage jsonParse data page).1.ws = page.ws ∧
      (onmessage jsonParse data page).1.timers = page.timers := by
  have h : onmessage jsonParse data page =
      ({ page with console := page.console ++ ["Error handling WebSocket message:"] }, none) := by
    simp [onmessage, hbad, consoleLog]
  rw [h]
  exact ⟨rfl, rfl, rfl, rfl, rfl⟩

/-- C10, at the open channel receiving the text `<html>`. -/
theorem onmessage_drops_malformed_witness :
    onmessage rejectAll "<html>" openPage =
        ({ openPage with console := openPage.console ++ ["Error handling WebSocket message:"] },
          none) ∧
      (onmessage rejectAll "<html>" openPage).1.dispatched = openPage.dispatched ∧
      (onmessage rejectAll "<html>" openPage).1.sockets = openPage.sockets ∧
      (onmessage rejectAll "<html>" openPage).1.ws = openPage.ws ∧
      (onmessage rejectAll "<html>" openPage).1.timers = openPage.timers :=
  onmessage_drops_malformed rejectAll "<html>" openPage _ rfl

/-! ## Properties of the event router -/

/-- C12, refuted as stated: for a `productName` that is an object with an
own `toString` property, the template of line 123 throws a `TypeError`
before `showNotification` is reached: the message raises no notification,
and `onmessage` logs the error. -/
theorem stock_alert_unprintable_name_raises_nothing :
    handleWebSocketMessage unprintableAlert dashboardAdmin.page =
        (dashboardAdmin.page,
          some ⟨"TypeError", "Cannot convert object to primitive value"⟩) ∧
      dashboardAdmin.page.notifications = [] ∧
      (adminStep sampleParse dashboardAdmin (.live (.wsMessage 0 unprintableAlertText))).map
          (fun next => (next.page.notifications, next.page.console)) =
        some ([], ["WebSocket connected", "Error handling WebSocket message:"]) := by
  exact ⟨rfl, rfl, rfl⟩

/-- C12, amended: for every state of the admin page (whatever section is
active) and every `productName` and `stock` that convert to text (every
text and every number among them), `handleWebSocketMessage` on
`{ type: "STOCK_ALERT", productName, stock }` raises exactly one
notification, of type `warning`, with the text
`Low stock alert: <productName> (<stock> remaining)`, and throws nothing;
the task of the `message` event changes nothing else of the page, so the
stat cards and the activity list stay as they are. When `productName` or
`stock` does not convert (an object with an own `toString` property), the
error of the conversion is thrown and no notification is raised. -/
theorem stock_alert_raises_one_warning (admin : Admin) (productName stock : JsVal) :
    (∀ nameText stockText, productName.toStr = .ok nameText → stock.toStr = .ok stockText →
      handleWebSocketMessage
          (.obj [("type", .str "STOCK_ALERT"), ("productName", productName),
            ("stock", stock)]) admin.page =
        (showNotification
          ("Low stock alert: " ++ nameText ++ " (" ++ stockText ++ " remaining)")
          "warning" admin.page, none) ∧
      (showNotification
          ("Low stock alert: " ++ nameText ++ " (" ++ stockText ++ " remaining)")
          "warning" admin.page).notifications =
        admin.page.notifications ++
          [⟨"notification warning",
            "Low stock alert: " ++ nameText ++ " (" ++ stockText ++ " remaining)", "", true⟩] ∧
      ∀ (jsonParse : String → Except JsError JsVal) socket text,
        admin.page.sockets[socket]? = some .OPEN →
        jsonParse text = .ok (.obj [("type", .str "STOCK_ALERT"),
          ("productName", productName), ("stock", stock)]) →
        adminStep jsonParse admin (.live (.wsMessage socket text)) =
          some (admin.onPage (fun page =>
            showNotification
              ("Low stock alert: " ++ nameText ++ " (" ++ stockText ++ " remaining)")
              "warning"
              { page with dispatched := page.dispatched ++
                  [.obj [("type", .str "STOCK_ALERT"), ("productName", productName),
                    ("stock", stock)]] }))) ∧
    (∀ name digits,
      handleWebSocketMessage
          (.obj [("type", .str "STOCK_ALERT"), ("productName", .str name),
            ("stock", .num digits)]) admin.page =
        (showNotification ("Low stock alert: " ++ name ++ " (" ++ digits ++ " remaining)")
          "warning" admin.page, none)) ∧
    (∀ e, productName.toStr = .error e →
      handleWebSocketMessage
          (.obj [("type", .str "STOCK_ALERT"), ("productName", productName),
            ("stock", stock)]) admin.page = (admin.page, some e)) ∧
    (∀ nameText e, productName.toStr = .ok nameText → stock.toStr = .error e →
      handleWebSocketMessage
          (.obj [("type", .str "STOCK_ALERT"), ("productName", productName),
            ("stock", stock)]) admin.page = (admin.page, some e)) := by
  refine ⟨?_, ?_, ?_, ?_⟩
  · intro nameText stockText hname hstock
    refine ⟨?_, rfl, ?_⟩
    · simp [handleWebSocketMessage, JsVal.getProp, lookupField, JsVal.isText, hname, hstock]
    · intro jsonParse socket text hopen hparse
      simp [adminStep, step, hopen, onmessage, hparse, handleWebSocketMessage, JsVal.getProp,
        lookupField, JsVal.isText, hname, hstock, Admin.onPage]
  · intro name digits
    simp [handleWebSocketMessage, JsVal.getProp, lookupField, JsVal.isText, JsVal.toStr]
  · intro e hthrows
    simp [handleWebSocketMessage, JsVal.getProp, lookupField, JsVal.isText, hthrows]
  · intro nameText e hname hthrows
    simp [handleWebSocketMessage, JsVal.getProp, lookupField, JsVal.isText, hname, hthrows]

/-- C12 amended, at the scenario of the claim: `Hammer`, 2 remaining, while
the section `orders` is active: one warning is raised, and the stat cards
and the activity list are the ones of before. -/
theorem stock_alert_raises_one_warning_witness :
    displayedSections ordersAdmin = ["orders"] ∧
    handleWebSocketMessage hammerAlert ordersAdmin.page =
      (showNotification "Low stock alert: Hammer (2 remaining)" "warning" ordersAdmin.page,
        none) ∧
    (adminStep sampleParse ordersAdmin (.live (.wsMessage 0 hammerAlertText))).map
        (fun next => (next.page.notifications, displayedSections next)) =
      some ([⟨"notification warning", "Low stock alert: Hammer (2 remaining)", "", true⟩],
        ["orders"]) ∧
    adminStep sampleParse ordersAdmin (.live (.wsMessage 0 hammerAlertText)) =
      some (ordersAdmin.onPage (fun page =>
        showNotification ("Low stock alert: " ++ "Hammer" ++ " (" ++ "2" ++ " remaining)")
          "warning" { page with dispatched := page.dispatched ++ [hammerAlert] })) :=
  ⟨rfl,
   ((stock_alert_raises_one_warning ordersAdmin (.str "Hammer") (.num "2")).1
      "Hammer" "2" rfl rfl).1,
   rfl,
   ((stock_alert_raises_one_warning ordersAdmin (.str "Hammer") (.num "2")).1
      "Hammer" "2" rfl rfl).2.2 sampleParse 0 hammerAlertText rfl rfl⟩

/-- C13, the code at the failing input: the dashboard is the active
section and a `STATS_UPDATE` message arrives. Line 117 calls
`updateDashboardStats`, which the source binds nowhere: the call throws a
`ReferenceError`, `onmessage` logs it, and the stat cards are not updated.
The same happens while `orders` is active. -/
theorem stats_update_call_is_unbound :
    displayedSections dashboardAdmin = ["dashboard"] ∧
    handleWebSocketMessage statsUpdate dashboardAdmin.page =
      (dashboardAdmin.page, some ⟨"ReferenceError", "updateDashboardStats is not defined"⟩) ∧
    adminStep sampleParse dashboardAdmin (.live (.wsMessage 0 statsUpdateText)) =
      some (dashboardAdmin.onPage (fun page =>
        consoleLog "Error handling WebSocket message:"
          { page with dispatched := page.dispatched ++ [statsUpdate] })) ∧
    displayedSections ordersAdmin = ["orders"] ∧
    adminStep sampleParse ordersAdmin (.live (.wsMessage 0 statsUpdateText)) =
      some (ordersAdmin.onPage (fun page =>
        consoleLog "Error handling WebSocket message:"
          { page with dispatched := page.dispatched ++ [statsUpdate] })) := by
  exact ⟨rfl, rfl, rfl, rfl, rfl⟩

/-- C14: for every parsed message whose `type` can be read and is none of
`STATS_UPDATE`, `NEW_ACTIVITY`, `STOCK_ALERT` (a missing type and a pong
included), `handleWebSocketMessage` changes nothing and throws nothing. -/
theorem unknown_kind_ignored (data type : JsVal) (page : Page)
    (hread : data.getProp "type" = .ok type)
    (hstats : type.isText "STATS_UPDATE" = false)
    (hactivity : type.isText "NEW_ACTIVITY" = false)
    (halert : type.isText "STOCK_ALERT" = false) :
    handleWebSocketMessage data page = (page, none) := by
  simp [handleWebSocketMessage, hread, hstats, hactivity, halert]

/-- C14, at a pong message and at an object without `type`. -/
theorem unknown_kind_ignored_witness :
    handleWebSocketMessage (.obj [("type", .str "pong")]) loadedAdmin.page =
        (loadedAdmin.page, none) ∧
      handleWebSocketMessage (.obj [("ack", .bool true)]) loadedAdmin.page =
        (loadedAdmin.page, none) :=
  ⟨unknown_kind_ignored (.obj [("type", .str "pong")]) (.str "pong") loadedAdmin.page
      rfl rfl rfl rfl,
   unknown_kind_ignored (.obj [("ack", .bool true)]) .undefined loadedAdmin.page
      rfl rfl rfl rfl⟩

theorem getElem?_append_singleton_length {α : Type} (l : List α) (a : α) :
    (l ++ [a])[l.length]? = some a := by
  simp

theorem eraseIdx_append_singleton_length {α : Type} (l : List α) (a : α) :
    (l ++ [a]).eraseIdx l.length = l := by
  induction l with
  | nil => rfl
  | cons x rest ih => simp [ih]

/-- C18: `pingServer` sends the probe `{"type":"ping"}` on the current
channel and registers its next tick 25000 ms later exactly when `ws` refers
to an `OPEN` socket; called while `ws` is `undefined` or not `OPEN` it sends
nothing and registers nothing, which ends the loop. A tick cannot run
before it is due and, when it runs, is one call of `pingServer`; so on an
open channel the tick that runs when it is due sends the next probe 25 s
after the previous one and registers the following tick 25 s later
again. -/
theorem pingServer_probes_only_while_open (jsonParse : String → Except JsError JsVal)
    (page : Page) :
    (∀ socket, page.ws = some socket → page.sockets[socket]? = some .OPEN →
      pingServer page =
        { page with sent := page.sent ++ [(socket, "\x7b\"type\":\"ping\"\x7d")],
                    timers := page.timers ++ [⟨.pingServer, page.now + 25000⟩] }) ∧
    (page.wsReadyState ≠ some .OPEN → pingServer page = page) ∧
    (∀ k due ctorThrows, page.timers[k]? = some ⟨.pingServer, due⟩ →
      (page.now < due → step jsonParse page (.timeout k ctorThrows) = none) ∧
      (due ≤ page.now → step jsonParse page (.timeout k ctorThrows) =
        some (pingServer { page with timers := page.timers.eraseIdx k }))) ∧
    (∀ socket ctorThrows, page.ws = some socket → page.sockets[socket]? = some .OPEN →
      run jsonParse (pingServer page) [.advance 25000, .timeout page.timers.length ctorThrows] =
        some { page with
          now := page.now + 25000,
          sent := page.sent ++ [(socket, "\x7b\"type\":\"ping\"\x7d"),
            (socket, "\x7b\"type\":\"ping\"\x7d")],
          timers := page.timers ++ [⟨.pingServer, page.now + 25000 + 25000⟩] }) := by
  have hopen : ∀ socket, page.ws = some socket → page.sockets[socket]? = some .OPEN →
      pingServer page =
        { page with sent := page.sent ++ [(socket, "\x7b\"type\":\"ping\"\x7d")],
                    timers := page.timers ++ [⟨.pingServer, page.now + 25000⟩] } := by
    intro socket hws hopen
    simp [pingServer, hws, hopen, setTimeout, pingText]
  refine ⟨hopen, ?_, ?_, ?_⟩
  · intro hnot
    unfold Page.wsReadyState at hnot
    unfold pingServer
    cases hws : page.ws with
    | none => rfl
    | some socket =>
        rw [hws] at hnot
        simp only at hnot
        simp [hnot]
  · intro k due ctorThrows hk
    constructor
    · intro hearly
      simp [step, hk, Nat.not_le.2 hearly]
    · intro hdue
      simp [step, hk, hdue, runCallback]
  · intro socket ctorThrows hws hsocket
    rw [hopen socket hws hsocket]
    simp [run, step, getElem?_append_singleton_length, eraseIdx_append_singleton_length,
      runCallback, pingServer, hws, hsocket, setTimeout, pingText]

/-- C18, at the open channel (a probe is sent, the next tick is due 25 s
later; run when due, it sends the second probe and is due 25 s later
again) and at the closed channel (the tick does nothing). -/
theorem pingServer_probes_only_while_open_witness :
    pingServer openPage =
        { openPage with sent := openPage.sent ++ [(0, "\x7b\"type\":\"ping\"\x7d")],
                        timers := openPage.timers ++ [⟨.pingServer, openPage.now + 25000⟩] } ∧
      pingServer closedPage = closedPage ∧
      step rejectAll openPage (.timeout 0 false) = none ∧
      (run rejectAll (pingServer openPage)
          [.advance 25000, .timeout openPage.timers.length false]).map
          (fun next => (next.now, next.sent.length, next.timers)) =
        some (25000, 3, [⟨.pingServer, 25000⟩, ⟨.pingServer, 50000⟩]) :=
  ⟨(pingServer_probes_only_while_open rejectAll openPage).1 0 rfl rfl,
   (pingServer_probes_only_while_open rejectAll closedPage).2.1 (by decide),
   ((pingServer_probes_only_while_open rejectAll openPage).2.2.1 0 25000 false rfl).1
      (by decide),
   by
     rw [(pingServer_probes_only_while_open rejectAll openPage).2.2.2 0 false rfl rfl]
     rfl⟩

/-! ## Properties of the section loaders -/

/-- C11, refuted as stated: `showSection("products")`, then
`showSection("orders")` before the products pull resolves; when that pull
resolves, the products list is rewritten while `orders` is the active
section. And after two activations of `products`, the pull of the first,
resolving last, overwrites the result of the second. -/
theorem stale_pull_result_is_applied :
    (adminRun sampleParse loadedAdmin
        [.navClick 1, .navClick 2, .pullSettles 1 (.resolved (.arr [hammer]))]).map
        (fun admin => (displayedSections admin, admin.productsList, admin.pulls)) =
      some (["orders"], .table [hammer], [.dashboardStats, .orders]) ∧
    (adminRun sampleParse loadedAdmin
        [.navClick 1, .navClick 1, .pullSettles 2 (.resolved (.arr [drill])),
          .pullSettles 1 (.resolved (.arr [hammer]))]).map
        (fun admin => admin.productsList) =
      some (.table [hammer]) := by
  exact ⟨rfl, rfl⟩

/-- C11, amended: the result of a pull is applied to its list when the
pull resolves, whatever activations were made since it was issued: in every
state of the page, a pending pull of `/products`, `/orders`, `/customers`
or `/contacts` that resolves with data its table template accepts rewrites
the list of its section and changes nothing else. Of several pulls for one
list, the one that resolves last decides what the list shows. -/
theorem pull_result_applied_when_it_resolves (jsonParse : String → Except JsError JsVal)
    (admin : Admin) (index : Nat) (payload : JsVal) (rows : List JsVal) :
    (admin.pulls[index]? = some .products → renderRows productRow payload = .ok rows →
      adminStep jsonParse admin (.pullSettles index (.resolved payload)) =
        some { admin with pulls := admin.pulls.eraseIdx index, productsList := .table rows }) ∧
    (admin.pulls[index]? = some .orders → renderRows orderRow payload = .ok rows →
      adminStep jsonParse admin (.pullSettles index (.resolved payload)) =
        some { admin with pulls := admin.pulls.eraseIdx index, ordersList := .table rows }) ∧
    (admin.pulls[index]? = some .customers → renderRows customerRow payload = .ok rows →
      adminStep jsonParse admin (.pullSettles index (.resolved payload)) =
        some { admin with pulls := admin.pulls.eraseIdx index, customersList := .table rows }) ∧
    (admin.pulls[index]? = some .inquiries → renderRows inquiryRow payload = .ok rows →
      adminStep jsonParse admin (.pullSettles index (.resolved payload)) =
        some { admin with pulls := admin.pulls.eraseIdx index, contactsList := .table rows }) := by
  refine ⟨?_, ?_, ?_, ?_⟩ <;>
  · intro hpull hrows
    simp [adminStep, hpull, resume, hrows]

/-- C11 amended, at the scenario of the claim: `orders` is active and its
pull is pending when the products pull resolves; the products list is
rewritten, the active section and the pending orders pull stay. -/
theorem pull_result_applied_when_it_resolves_witness :
    displayedSections ordersAfterProducts = ["orders"] ∧
    ordersAfterProducts.pulls = [.dashboardStats, .products, .orders] ∧
    adminStep sampleParse ordersAfterProducts (.pullSettles 1 (.resolved (.arr [hammer]))) =
      some { ordersAfterProducts with
        pulls := ordersAfterProducts.pulls.eraseIdx 1, productsList := .table [hammer] } :=
  ⟨rfl, rfl,
    (pull_result_applied_when_it_resolves sampleParse ordersAfterProducts 1 (.arr [hammer])
      [hammer]).1 rfl rfl⟩

/-- C16, the code at the failing input: the `/products` pull fails after
three attempts against a server that always answers 500. `loadProducts`
logs and notifies: the products list shows no error state, the document has
no Retry control, and no pull is issued. The same holds for `loadOrders`
and `loadCustomers`; `loadInquiries` and `loadDashboardData`, in the same
situation, render the Retry button. -/
theorem failed_pull_leaves_no_retry_control :
    (apiRequest (some "t0k3n") failingNetwork "/products" noOptions 3).1 = .rejected pullError ∧
    (adminRun sampleParse loadedAdmin [.navClick 1, .pullSettles 1 (.rejected pullError)]).map
        (fun admin => (admin.productsList.retry, retryControls admin, admin.pulls,
          admin.page.notifications.map (fun n => n.message))) =
      some (none, [], [.dashboardStats], ["Failed to load products"]) ∧
    (adminRun sampleParse loadedAdmin [.navClick 2, .pullSettles 1 (.rejected pullError)]).map
        (fun admin => (admin.ordersList.retry, retryControls admin, admin.pulls)) =
      some (none, [], [.dashboardStats]) ∧
    (adminRun sampleParse loadedAdmin [.navClick 3, .pullSettles 1 (.rejected pullError)]).map
        (fun admin => (admin.customersList.retry, retryControls admin, admin.pulls)) =
      some (none, [], [.dashboardStats]) ∧
    (adminRun sampleParse loadedAdmin [.navClick 4, .pullSettles 1 (.rejected pullError)]).map
        (fun admin => (admin.contactsList.retry, retryControls admin, admin.pulls)) =
      some (some .loadInquiries, [.loadInquiries], [.dashboardStats]) ∧
    (adminRun sampleParse loadedAdmin [.pullSettles 0 (.rejected pullError)]).map
        (fun admin => (admin.activityList.retry, retryControls admin, admin.pulls)) =
      some (some .loadDashboardData, [.loadDashboardData], []) := by
  refine ⟨?_, rfl, rfl, rfl, rfl, rfl⟩
  have e0 : tryBody (failingNetwork 0 (buildRequest (some "t0k3n") "/products" noOptions)) =
      .error pullError := rfl
  have e1 : tryBody (failingNetwork (0 + 1)
      (buildRequest (some "t0k3n") "/products" noOptions)) = .error pullError := rfl
  have e2 : tryBody (failingNetwork (0 + 1 + 1)
      (buildRequest (some "t0k3n") "/products" noOptions)) = .error pullError := rfl
  have h3 : ((3 : Int)) = ((1 : Nat) : Int) + 2 := by norm_num
  have h2 : (((1 : Nat) : Int) + 1) = ((0 : Nat) : Int) + 2 := by norm_num
  have h1 : (((0 : Nat) : Int) + 1) = 1 := by norm_num
  rw [apiRequest, h3, whileRetries_fail_more _ _ 1 _ _ _ e0, h2,
    whileRetries_fail_more _ _ 0 _ _ _ e1, h1, whileRetries_fail_last _ _ _ _ _ e2]

/-! ## Properties of `showSection` -/

theorem findIndex_hideSections (sectionId : String) (elements : List Element) :
    findIndex (fun el => el.id == sectionId) (hideSections elements) =
      findIndex (fun el => el.id == sectionId) elements := by
  induction elements with
  | nil => rfl
  | cons x rest ih =>
      have ih2 : findIndex (fun el => el.id == sectionId) (List.map
          (fun el => if el.adminSection = true then { el with display := "none" } else el) rest) =
          findIndex (fun el => el.id == sectionId) rest := ih
      by_cases hx : x.adminSection = true <;>
        simp [hideSections, findIndex, hx, ih2]

theorem findIndex_unmarkNav (href : String) (nav : List NavItem) :
    findIndex (fun item => item.href == href) (unmarkNav nav) =
      findIndex (fun item => item.href == href) nav := by
  induction nav with
  | nil => rfl
  | cons x rest ih =>
      have ih2 : findIndex (fun item => item.href == href)
          (List.map (fun item => { item with active := false }) rest) =
          findIndex (fun item => item.href == href) rest := ih
      simp [unmarkNav, findIndex, ih2]

/-- After lines 258-260 no section is displayed. -/
theorem hideSections_none_displayed (elements : List Element) :
    (hideSections elements).filter (fun el => el.adminSection && el.display == "block") = [] := by
  induction elements with
  | nil => rfl
  | cons x rest ih =>
      have ih2 : List.filter (fun el => el.adminSection && el.display == "block") (List.map
          (fun el => if el.adminSection = true then { el with display := "none" } else el) rest) =
          [] := ih
      by_cases hx : x.adminSection = true <;>
        simp [hideSections, hx, ih2]

/-- After lines 263-265 no nav item is marked. -/
theorem unmarkNav_none_active (nav : List NavItem) :
    (unmarkNav nav).filter (·.active) = [] := by
  induction nav with
  | nil => rfl
  | cons x rest ih =>
      have ih2 : List.filter (·.active)
          (List.map (fun item => { item with active := false }) rest) = [] := ih
      simp [unmarkNav, ih2]

/-- The selected section is the one section displayed after line 270. -/
theorem displayed_after_select (sectionId : String) (elements : List Element) :
    ∀ (selected : Nat) (el : Element),
      findIndex (fun el => el.id == sectionId) elements = some selected →
      elements[selected]? = some el → el.adminSection = true →
      ((((hideSections elements).modify (fun el => { el with display := "block" })
        selected).filter (fun el => el.adminSection && el.display == "block")).map (·.id)) =
        [sectionId] := by
  induction elements with
  | nil => intro selected el h; simp [findIndex] at h
  | cons x rest ih =>
      intro selected el hfind hget hsection
      simp only [findIndex] at hfind
      have htail := hideSections_none_displayed rest
      by_cases hx : (x.id == sectionId) = true
      · simp only [hx, if_true, Option.some.injEq] at hfind
        subst hfind
        simp only [List.getElem?_cons_zero, Option.some.injEq] at hget
        subst hget
        have hid : x.id = sectionId := by simpa using hx
        simp [hideSections, hsection, hid] at htail ⊢
        exact htail
      · cases hrest : findIndex (fun el => el.id == sectionId) rest with
        | none => simp [hx, hrest] at hfind
        | some j =>
            simp [hx, hrest] at hfind
            subst hfind
            simp only [List.getElem?_cons_succ] at hget
            have := ih j el hrest hget hsection
            by_cases hxs : x.adminSection = true
            · simp [hideSections, hxs] at this ⊢
              exact this
            · simp [hideSections, hxs] at this ⊢
              exact this

/-- The nav item of the selected section is the one item marked after
line 272. -/
theorem active_after_select (href : String) (nav : List NavItem) :
    ∀ (link : Nat), findIndex (fun item => item.href == href) nav = some link →
      ((((unmarkNav nav).modify (fun item => { item with active := true }) link).filter
        (·.active)).map (·.href)) = [href] := by
  induction nav with
  | nil => intro link h; simp [findIndex] at h
  | cons x rest ih =>
      intro link hfind
      simp only [findIndex] at hfind
      have htail := unmarkNav_none_active rest
      by_cases hx : (x.href == href) = true
      · simp only [hx, if_true, Option.some.injEq] at hfind
        subst hfind
        have hid : x.href = href := by simpa using hx
        simp [unmarkNav, hid] at htail ⊢
      · cases hrest : findIndex (fun item => item.href == href) rest with
        | none => simp [hx, hrest] at hfind
        | some j =>
            simp [hx, hrest] at hfind
            subst hfind
            have := ih j hrest
            simp [unmarkNav] at this ⊢
            exact this

/-- The loaders do not touch the sections and the nav items. -/
theorem loadSectionContent_document (sectionId : String) (admin : Admin) :
    (loadSectionContent sectionId admin).elements = admin.elements ∧
      (loadSectionContent sectionId admin).nav = admin.nav ∧
      (loadSectionContent sectionId admin).page = admin.page := by
  unfold loadSectionContent
  split_ifs <;> exact ⟨rfl, rfl, rfl⟩

/-- C15, refuted as stated: `showSection("reports")`, an id that no element
of the document has, hides every section and marks no nav item: no section
is active afterwards. -/
theorem showSection_unknown_id_leaves_no_section :
    displayedSections loadedAdmin = ["dashboard"] ∧
      displayedSections (showSection "reports" loadedAdmin) = [] ∧
      activeNavItems (showSection "reports" loadedAdmin) = [] := by
  exact ⟨rfl, rfl, rfl⟩

/-- C15, amended: after every call `showSection(id)` whose `id` is that of
an `admin-section` element for which a nav link exists, exactly one section
is active, the selected one: it alone is displayed and its nav item alone
is marked, every other section having been hidden and unmarked in the same
synchronous run. For an `id` that no element has, the guard of line 269
leaves every section hidden and no nav item marked. -/
theorem showSection_activates_exactly_one (sectionId : String) (admin : Admin) :
    (∀ selected el link,
      findIndex (fun el => el.id == sectionId) admin.elements = some selected →
      admin.elements[selected]? = some el → el.adminSection = true →
      findIndex (fun item => item.href == "#" ++ sectionId) admin.nav = some link →
      displayedSections (showSection sectionId admin) = [sectionId] ∧
        activeNavItems (showSection sectionId admin) = ["#" ++ sectionId]) ∧
    (findIndex (fun el => el.id == sectionId) admin.elements = none →
      displayedSections (showSection sectionId admin) = [] ∧
        activeNavItems (showSection sectionId admin) = []) := by
  constructor
  · intro selected el link hfind hget hsection hlink
    have hd := displayed_after_select sectionId admin.elements selected el hfind hget hsection
    have ha := active_after_select ("#" ++ sectionId) admin.nav link hlink
    have h1 := findIndex_hideSections sectionId admin.elements
    have h2 := findIndex_unmarkNav ("#" ++ sectionId) admin.nav
    simp only [showSection, h1, hfind, h2, hlink, displayedSections, activeNavItems,
      (loadSectionContent_document _ _).1, (loadSectionContent_document _ _).2.1]
    exact ⟨hd, ha⟩
  · intro hnone
    have h1 := findIndex_hideSections sectionId admin.elements
    simp only [showSection, h1, hnone, displayedSections, activeNavItems,
      hideSections_none_displayed, unmarkNav_none_active, List.map_nil, and_self]

/-- C15 amended, at the console with `dashboard` active: `showSection`
of `orders` leaves `orders` alone active; `showSection` of an unknown id
leaves nothing active. -/
theorem showSection_activates_exactly_one_witness :
    displayedSections loadedAdmin = ["dashboard"] ∧
      displayedSections (showSection "orders" loadedAdmin) = ["orders"] ∧
      activeNavItems (showSection "orders" loadedAdmin) = ["#" ++ "orders"] ∧
      displayedSections (showSection "reports" loadedAdmin) = [] ∧
      activeNavItems (showSection "reports" loadedAdmin) = [] :=
  have h := (showSection_activates_exactly_one "orders" loadedAdmin).1 2
    ⟨"orders", true, "none"⟩ 2 rfl rfl rfl rfl
  have h0 := (showSection_activates_exactly_one "reports" loadedAdmin).2 rfl
  ⟨rfl, h.1, h.2, h0.1, h0.2⟩

/-! ## Properties of `checkAdminAccess` and of start-up -/

theorem noChannel_of_quiet {a b : Page} (ha : NoChannel a) (hq : Quiet a b) : NoChannel b := by
  obtain ⟨hs, ht⟩ := ha
  obtain ⟨hs2, _, extra, ht2, hextra⟩ := hq
  refine ⟨hs2.trans hs, ?_⟩
  have hcount : extra.countP (fun t => t.callback.isReconnect) = 0 := by
    rw [List.countP_eq_zero]
    intro t htmem
    simp [hextra t htmem]
  simp only [reconnectTimers, ht2, List.countP_append, hcount] at ht ⊢
  simpa using ht

/-- No task of the live channel constructs a socket while none exists and
no reconnect timer is pending. -/
theorem noChannel_step (jsonParse : String → Except JsError JsVal) {page next : Page}
    (event : Event) (hno : NoChannel page) (hstep : step jsonParse page event = some next) :
    NoChannel next := by
  obtain ⟨hs, ht⟩ := hno
  cases event with
  | wsOpen i => simp [step, hs] at hstep
  | wsMessage i data => simp [step, hs] at hstep
  | wsError i => simp [step, hs] at hstep
  | wsClosing i => simp [step, hs] at hstep
  | wsClose i => simp [step, hs] at hstep
  | advance ms =>
      simp only [step] at hstep
      injection hstep with hstep
      subst hstep
      exact ⟨hs, ht⟩
  | timeout k ctorThrows =>
      simp only [step] at hstep
      split at hstep
      · exact absurd hstep (by simp)
      · rename_i timer hk
        split at hstep
        · injection hstep with hstep
          subst hstep
          have hc := countP_eraseIdx_of_getElem? (fun t : Timer => t.callback.isReconnect)
            page.timers k timer hk
          simp only [reconnectTimers] at ht
          have hno0 : NoChannel { page with timers := page.timers.eraseIdx k } :=
            ⟨hs, by simp only [reconnectTimers]; omega⟩
          have hnot : timer.callback.isReconnect = false := by
            cases hb : timer.callback.isReconnect with
            | false => rfl
            | true => simp [hb] at hc; omega
          cases hcb : timer.callback with
          | reconnectIfClosed => rw [hcb] at hnot; exact absurd hnot (by decide)
          | initializeWebSocket => rw [hcb] at hnot; exact absurd hnot (by decide)
          | pingServer =>
              simp only [runCallback]
              exact noChannel_of_quiet hno0 (quiet_pingServer _)
          | displayNotification id =>
              simp only [runCallback]
              exact noChannel_of_quiet hno0 (quiet_updateNotification _ _ _)
          | removeNotification id =>
              simp only [runCallback]
              exact noChannel_of_quiet hno0 (quiet_updateNotification _ _ _)
        · exact absurd hstep (by simp)
  | clickClose id =>
      simp only [step] at hstep
      split at hstep
      · injection hstep with hstep
        subst hstep
        exact noChannel_of_quiet ⟨hs, ht⟩ (quiet_updateNotification _ _ _)
      · exact absurd hstep (by simp)

theorem quiet_notify (label message : String) (page : Page) :
    Quiet page (showNotification message "error" (consoleLog label page)) :=
  (quiet_consoleLog _ _).trans (quiet_showNotification _ _ _)

theorem quiet_showSection (sectionId : String) (admin : Admin) :
    Quiet admin.page (showSection sectionId admin).page := by
  unfold showSection
  simp only
  split
  · exact Quiet.refl _
  · split
    · exact quiet_notify _ _ _
    · rw [(loadSectionContent_document _ _).2.2]
      exact Quiet.refl _

theorem quiet_resume (awaiting : Awaiting) (result : Settled) (admin : Admin) :
    Quiet admin.page (resume awaiting result admin).page := by
  cases awaiting <;> cases result <;> simp only [resume] <;>
    first
    | exact quiet_notify _ _ _
    | (split <;> first | exact Quiet.refl _ | exact quiet_notify _ _ _)

theorem loaderStart_page (loader : Loader) (admin : Admin) :
    (loader.start admin).page = admin.page := by
  cases loader <;> rfl

/-- No task of the admin page constructs a socket while none exists and no
reconnect timer is pending. -/
theorem noChannel_adminStep (jsonParse : String → Except JsError JsVal) {admin next : Admin}
    (event : AdminEvent) (hno : NoChannel admin.page)
    (hstep : adminStep jsonParse admin event = some next) : NoChannel next.page := by
  cases event with
  | live event =>
      simp only [adminStep] at hstep
      split at hstep
      · exact absurd hstep (by simp)
      · rename_i page hpage
        injection hstep with hstep
        subst hstep
        exact noChannel_step jsonParse event hno hpage
  | navClick item =>
      simp only [adminStep] at hstep
      split at hstep
      · split at hstep
        · exact absurd hstep (by simp)
        · injection hstep with hstep
          subst hstep
          exact noChannel_of_quiet hno (quiet_showSection _ _)
      · exact absurd hstep (by simp)
  | pullSettles index result =>
      simp only [adminStep] at hstep
      split at hstep
      · exact absurd hstep (by simp)
      · injection hstep with hstep
        subst hstep
        exact noChannel_of_quiet hno (quiet_resume _ _ _)
  | retryClick loader =>
      simp only [adminStep] at hstep
      split at hstep
      · injection hstep with hstep
        subst hstep
        rw [loaderStart_page]
        exact hno
      · exact absurd hstep (by simp)
  | redirectTimeout index =>
      simp only [adminStep] at hstep
      split at hstep
      · exact absurd hstep (by simp)
      · split at hstep
        · injection hstep with hstep
          subst hstep
          exact hno
        · exact absurd hstep (by simp)

theorem noChannel_adminRun (jsonParse : String → Except JsError JsVal)
    (events : List AdminEvent) :
    ∀ {admin final : Admin}, NoChannel admin.page →
      adminRun jsonParse admin events = some final → NoChannel final.page := by
  induction events with
  | nil =>
      intro admin final hno hrun
      simp only [adminRun] at hrun
      injection hrun with hrun
      exact hrun ▸ hno
  | cons event rest ih =>
      intro admin final hno hrun
      simp only [adminRun] at hrun
      split at hrun
      · exact absurd hrun (by simp)
      · rename_i mid hstep
        exact ih (noChannel_adminStep jsonParse event hno hstep) hrun

theorem isText_iff (value : JsVal) (text : String) :
    value.isText text = true ↔ value = .str text := by
  cases value <;> simp [JsVal.isText]

/-- The outcomes of `checkAdminAccess`: it grants access and leaves the
page as it is, or it denies access, redirects at once or in 2000 ms, and
leaves the live channel alone. -/
theorem checkAdminAccess_cases (jsonParse : String → Except JsError JsVal)
    (verify : Request → FetchResult) (admin : Admin) :
    (checkAdminAccess jsonParse verify admin = (true, admin) ∧
      ∃ text user token response, admin.user = some text ∧ jsonParse text = .ok user ∧
        user.truthy = true ∧ admin.token = some token ∧ token ≠ "" ∧
        user.getProp "role" = .ok (.str "admin") ∧
        verify (verifyRequest token) = .ok response ∧ response.ok = true) ∨
    ((checkAdminAccess jsonParse verify admin).1 = false ∧
      (¬ ∃ text user token response, admin.user = some text ∧ jsonParse text = .ok user ∧
        user.truthy = true ∧ admin.token = some token ∧ token ≠ "" ∧
        user.getProp "role" = .ok (.str "admin") ∧
        verify (verifyRequest token) = .ok response ∧ response.ok = true) ∧
      ((checkAdminAccess jsonParse verify admin).2.location = "../index.html" ∨
        (admin.page.now + 2000) ∈ (checkAdminAccess jsonParse verify admin).2.redirects) ∧
      Quiet admin.page (checkAdminAccess jsonParse verify admin).2.page) := by
  cases hu : admin.user with
  | none =>
      right
      have hres : checkAdminAccess jsonParse verify admin =
          (false, { admin with location := "../index.html" }) := by
        cases ht : admin.token <;> simp [checkAdminAccess, hu, ht, JsVal.truthy]
      rw [hres]
      exact ⟨rfl, fun ⟨_, _, _, _, h, _⟩ => by simp at h, Or.inl rfl, Quiet.refl _⟩
  | some text =>
      cases hp : jsonParse text with
      | error e =>
          right
          have hres : checkAdminAccess jsonParse verify admin = (false, accessError admin) := by
            simp [checkAdminAccess, hu, hp]
          rw [hres]
          refine ⟨rfl, ?_, Or.inl rfl, quiet_consoleLog _ _⟩
          rintro ⟨t, u, _, _, h1, h2, _⟩
          simp only [Option.some.injEq] at h1
          subst h1
          rw [hp] at h2
          cases h2
      | ok user =>
          cases ht : admin.token with
          | none =>
              right
              have hres : checkAdminAccess jsonParse verify admin =
                  (false, { admin with location := "../index.html" }) := by
                simp [checkAdminAccess, hu, hp, ht]
              rw [hres]
              refine ⟨rfl, ?_, Or.inl rfl, Quiet.refl _⟩
              rintro ⟨_, _, _, _, _, _, _, h4, _⟩
              cases h4
          | some token =>
              by_cases hfalsy : (!user.truthy || token == "") = true
              · right
                have hres : checkAdminAccess jsonParse verify admin =
                    (false, { admin with location := "../index.html" }) := by
                  simp only [checkAdminAccess, hu, hp, ht, hfalsy, if_true]
                rw [hres]
                refine ⟨rfl, ?_, Or.inl rfl, Quiet.refl _⟩
                rintro ⟨t, u, tok, _, h1, h2, h3, h4, h5, _⟩
                simp only [Option.some.injEq] at h1 h4
                subst h1
                subst h4
                rw [hp] at h2
                injection h2 with h2
                subst h2
                simp [h3, h5] at hfalsy
              · have htruthy : user.truthy = true := by
                  cases hb : user.truthy with
                  | true => rfl
                  | false => simp [hb] at hfalsy
                have htoken : token ≠ "" := by
                  intro h
                  simp [h] at hfalsy
                cases hr : user.getProp "role" with
                | error e =>
                    right
                    have hres : checkAdminAccess jsonParse verify admin =
                        (false, accessError admin) := by
                      simp only [checkAdminAccess, hu, hp, ht, hfalsy, hr]
                      rfl
                    rw [hres]
                    refine ⟨rfl, ?_, Or.inl rfl, quiet_consoleLog _ _⟩
                    rintro ⟨t, u, tok, _, h1, h2, _, _, _, h6, _⟩
                    simp only [Option.some.injEq] at h1
                    subst h1
                    rw [hp] at h2
                    injection h2 with h2
                    subst h2
                    rw [hr] at h6
                    cases h6
                | ok role =>
                    by_cases hrole : role.isText "admin" = true
                    · have hroleEq := (isText_iff role "admin").1 hrole
                      cases hv : verify (verifyRequest token) with
                      | error e =>
                          right
                          have hres : checkAdminAccess jsonParse verify admin =
                              (false, accessError admin) := by
                            simp only [checkAdminAccess, hu, hp, ht, hfalsy, hr, hrole, hv]
                            rfl
                          rw [hres]
                          refine ⟨rfl, ?_, Or.inl rfl, quiet_consoleLog _ _⟩
                          rintro ⟨_, _, tok, _, _, _, _, h4, _, _, h7, _⟩
                          simp only [Option.some.injEq] at h4
                          subst h4
                          rw [hv] at h7
                          cases h7
                      | ok response =>
                          by_cases hok : response.ok = true
                          · left
                            refine ⟨?_, text, user, token, response, rfl, hp, htruthy, rfl,
                              htoken, ?_, hv, hok⟩
                            · simp only [checkAdminAccess, hu, hp, ht, hfalsy, hr, hrole, hv, hok]
                              rfl
                            · rw [hr, hroleEq]
                          · right
                            have hres : checkAdminAccess jsonParse verify admin =
                                (false, accessError admin) := by
                              simp only [checkAdminAccess, hu, hp, ht, hfalsy, hr, hrole, hv, hok]
                              rfl
                            rw [hres]
                            refine ⟨rfl, ?_, Or.inl rfl, quiet_consoleLog _ _⟩
                            rintro ⟨_, _, tok, resp, _, _, _, h4, _, _, h7, h8⟩
                            simp only [Option.some.injEq] at h4
                            subst h4
                            rw [hv] at h7
                            injection h7 with h7
                            subst h7
                            exact hok h8
                    · right
                      have hres : checkAdminAccess jsonParse verify admin =
                          (false, { admin.onPage (showNotification "Admin access required" "error")
                            with redirects := admin.redirects ++ [admin.page.now + 2000] }) := by
                        simp only [checkAdminAccess, hu, hp, ht, hfalsy, hr, hrole]
                        rfl
                      rw [hres]
                      refine ⟨rfl, ?_, Or.inr (by simp), quiet_showNotification _ _ _⟩
                      rintro ⟨t, u, _, _, h1, h2, _, _, _, h6, _⟩
                      simp only [Option.some.injEq] at h1
                      subst h1
                      rw [hp] at h2
                      injection h2 with h2
                      subst h2
                      rw [hr] at h6
                      injection h6 with h6
                      exact hrole ((isText_iff role "admin").2 h6)

/-- C17: `checkAdminAccess` resolves to `true` if and only if a stored user
and a stored token both exist (are truthy), the role of the user is
`admin`, and the request to `http://localhost:3000/api/verify-admin` sent
with the header `Authorization: Bearer <token>` answers with an ok status;
that request is the one `checkAdminAccess` makes. In every other case it
resolves to `false` and redirects to `../index.html`, at once or by the
timer of lines 40-42, which assigns the location when it runs; and from that
start-up on, no task of the page constructs a socket. -/
theorem checkAdminAccess_grants_only_verified_admin
    (jsonParse : String → Except JsError JsVal) (verify : Request → FetchResult)
    (admin : Admin) :
    ((checkAdminAccess jsonParse verify admin).1 = true ↔
      ∃ text user token response, admin.user = some text ∧ jsonParse text = .ok user ∧
        user.truthy = true ∧ admin.token = some token ∧ token ≠ "" ∧
        user.getProp "role" = .ok (.str "admin") ∧
        verify ⟨"http://localhost:3000/api/verify-admin",
          [("Authorization", "Bearer " ++ token)], []⟩ = .ok response ∧
        response.ok = true) ∧
    (∀ token, verifyRequest token =
        ⟨"http://localhost:3000/api/verify-admin", [("Authorization", "Bearer " ++ token)], []⟩ ∧
      lookupField "Authorization" (verifyRequest token).headers = some ("Bearer " ++ token)) ∧
    ((checkAdminAccess jsonParse verify admin).1 = false →
      (checkAdminAccess jsonParse verify admin).2.location = "../index.html" ∨
        (admin.page.now + 2000) ∈ (checkAdminAccess jsonParse verify admin).2.redirects) ∧
    (∀ (state : Admin) index due, state.redirects[index]? = some due → due ≤ state.page.now →
      (adminStep jsonParse state (.redirectTimeout index)).map (fun next => next.location) =
        some "../index.html") ∧
    ((checkAdminAccess jsonParse verify admin).1 = false →
      admin.page.sockets = [] → reconnectTimers admin.page = 0 →
      ∀ ctorThrows events final,
        adminRun jsonParse (domContentLoaded jsonParse verify ctorThrows admin) events =
          some final →
        final.page.sockets = []) := by
  have hcases := checkAdminAccess_cases jsonParse verify admin
  refine ⟨?_, fun token => ⟨rfl, by simp [verifyRequest, lookupField]⟩, ?_, ?_, ?_⟩
  · rcases hcases with ⟨hres, hgranted⟩ | ⟨hfalse, hnot, _, _⟩
    · exact ⟨fun _ => hgranted, fun _ => by rw [hres]⟩
    · exact ⟨fun h => absurd (hfalse.symm.trans h) (by decide), fun h => absurd h hnot⟩
  · intro hfalse
    rcases hcases with ⟨hres, _⟩ | ⟨_, _, hredirect, _⟩
    · rw [hres] at hfalse
      cases hfalse
    · exact hredirect
  · intro state index due hget hdue
    simp [adminStep, hget, hdue]
  · intro hfalse hsockets htimers ctorThrows events final hrun
    rcases hcases with ⟨hres, _⟩ | ⟨_, _, _, hquiet⟩
    · rw [hres] at hfalse
      cases hfalse
    · have hdom : domContentLoaded jsonParse verify ctorThrows admin =
          (checkAdminAccess jsonParse verify admin).2 := by
        unfold domContentLoaded
        cases hc : checkAdminAccess jsonParse verify admin with
        | mk granted after =>
            rw [hc] at hfalse
            simp only at hfalse
            subst hfalse
            rfl
      rw [hdom] at hrun
      exact (noChannel_adminRun jsonParse events
        (noChannel_of_quiet ⟨hsockets, htimers⟩ hquiet) hrun).1

/-- C17, at three start-ups: a stored admin whose token the server accepts
is granted access; a stored customer is denied and the redirect timer is
pending; a stored admin whose token the server rejects is denied, redirected
at once, and has no socket 5 s later. -/
theorem checkAdminAccess_grants_only_verified_admin_witness :
    (checkAdminAccess sampleParse verifyAccepts storedAdmin).1 = true ∧
    (checkAdminAccess sampleParse verifyAccepts storedCustomer).1 = false ∧
    ((checkAdminAccess sampleParse verifyAccepts storedCustomer).2.location = "../index.html" ∨
      (storedCustomer.page.now + 2000) ∈
        (checkAdminAccess sampleParse verifyAccepts storedCustomer).2.redirects) ∧
    (checkAdminAccess sampleParse verifyRejects storedAdmin).2.location = "../index.html" ∧
    rejectedAdmin.page.sockets = [] :=
  ⟨(checkAdminAccess_grants_only_verified_admin sampleParse verifyAccepts storedAdmin).1.2
      ⟨adminUserText, .obj [("role", .str "admin")], "t0k3n",
        { contentType := some "application/json", status := 200, json := .ok (.obj []) },
        rfl, rfl, rfl, rfl, by decide, rfl, rfl, rfl⟩,
   rfl,
   (checkAdminAccess_grants_only_verified_admin sampleParse verifyAccepts storedCustomer).2.2.1 rfl,
   rfl,
   (checkAdminAccess_grants_only_verified_admin sampleParse verifyRejects storedAdmin).2.2.2.2
      rfl rfl rfl false [.live (.advance 5000)] rejectedAdmin rfl⟩

end BuildMart
